import Mathlib

/-!
Verification development for the protocol-sim-engine repository.

This file gives a shallow embedding, in Lean 4, of the parts of the source
relevant to the frozen claims:

* `src/port_manager.py` — `PortPool` (allocate / deallocate / contiguous block
  search) and `IntelligentPortManager` (per-device allocation records and plan
  validation).
* `src/data_patterns/industrial_patterns.py` — `IndustrialDataGenerator` and
  its per-device-type snapshot generation.
* `src/protocols/industrial/modbus/modbus_simulator.py` — the register update
  tick of a Modbus device.

Modelling conventions:

* Python floats are modelled as exact rationals (`ℚ`).  Python's `round(x, k)`
  is modelled as exact round-half-to-even at `k` decimal digits
  (`pyRoundTo`), `int(x)` as truncation toward zero (`pyInt`), and the float
  modulo `x % m` as `x - m * ⌊x / m⌋` (`qmod`).
* `math.sin`, `math.cos`, `math.pi` and `time.localtime().tm_hour` are kept
  abstract in a `MathEnv` record: the claims proved here do not depend on
  their values.
* The NumPy `RandomState` owned by a generator is modelled as an oracle
  stream: the k-th method call on the device's random state consumes the k-th
  value of a stream `ℕ → ℚ` selected by the 32-bit seed.  A call
  `normal(mu, sigma)` yields `mu + sigma * v`, `uniform(a, b)` yields
  `a + (b - a) * v`, `random()` yields `v` itself, and `choice` / `randint`
  index with the drawn value, where `v` is the next stream value.  Every
  claim settled below is independent of the distribution of the draws.
* Each update tick is driven by a single wall-clock instant `t`; all
  `time.time()` reads inside one tick observe `t`, and the constructor's
  `time.time()` read is the explicit argument `t0` of `mkGenerator`.
* Python dictionaries that the claims need to observe are modelled as
  association lists (`List (String × CVal)`) with first-match lookup, or —
  for the port manager's pools and device records, where only pointwise
  lookup matters — as functions `String → Option _`.
-/

namespace ProtocolSim

/-! ## Numeric helpers: Python primitives over ℚ -/

/-- Python `int(x)` on a float: truncation toward zero. -/
def pyInt (q : ℚ) : ℤ :=
  if 0 ≤ q then ⌊q⌋ else ⌈q⌉

/-- Round to the nearest integer, ties to even (Python's `round` on floats,
modelled exactly). -/
def rndHalfEven (x : ℚ) : ℤ :=
  let f : ℤ := ⌊x⌋
  let r : ℚ := x - f
  if r < 1/2 then f
  else if 1/2 < r then f + 1
  else if Even f then f else f + 1

/-- Python `round(x, k)` for floats, modelled exactly over ℚ. -/
def pyRoundTo (k : ℕ) (x : ℚ) : ℚ :=
  (rndHalfEven (x * 10 ^ k) : ℚ) / 10 ^ k

/-- Python float modulo `x % m` (for `m > 0`): `x - m * ⌊x / m⌋`. -/
def qmod (x m : ℚ) : ℚ :=
  x - m * ⌊x / m⌋

/-- Python `max(lo, min(hi, v))`, the clipping idiom used throughout the
data generator. -/
def pyClamp (lo hi v : ℚ) : ℚ :=
  max lo (min hi v)

/-! ## Port pool (`PortPool` in src/port_manager.py) -/

/-- State of one `PortPool`: a protocol tag, an inclusive port range, and the
two Python sets `allocated_ports` and `available_ports`. -/
structure PortPool where
  start_port : ℕ
  end_port : ℕ
  protocol : String
  allocated_ports : Finset ℕ
  available_ports : Finset ℕ
  deriving DecidableEq

/-- `PortPool.__init__`: no allocated ports, `available_ports =
set(range(start_port, end_port + 1))`. -/
def mkPortPool (s e : ℕ) (proto : String) : PortPool :=
  ⟨s, e, proto, ∅, Finset.Icc s e⟩

/-- `PortPool._can_allocate_from`: the block `range(start, start + count)` is
a subset of `available_ports`. -/
def canAllocateFrom (p : PortPool) (start count : ℕ) : Bool :=
  decide ((List.range' start count).toFinset ⊆ p.available_ports)

/-- The membership test `all(port in self.available_ports for port in
required_ports)` used by the contiguous-block search. -/
def blockFree (p : PortPool) (start count : ℕ) : Bool :=
  (List.range' start count).all (fun x => decide (x ∈ p.available_ports))

/-- `PortPool._find_contiguous_block`: walk the sorted available ports,
indices `0 .. len - count` inclusive, and return the first block of `count`
consecutive ports that is entirely available. -/
def findContiguousBlock (p : PortPool) (count : ℕ) : Option (List ℕ) :=
  (((p.available_ports.sort (· ≤ ·)).take
      ((p.available_ports.card : ℤ) - count + 1).toNat).find?
    (fun s => blockFree p s count)).map (fun s => List.range' s count)

/-- `PortPool.allocate(count, preferred_start)`.  Returns the Python result
(`None` ↦ `none`, a list ↦ `some`) together with the post-state of the pool.
Python truthiness is preserved: a `preferred_start` of `None` or `0` skips the
preferred-block path, and a `None`/empty block performs no mutation. -/
def PortPool.allocate (p : PortPool) (count : ℤ) (preferred : Option ℕ) :
    Option (List ℕ) × PortPool :=
  if count ≤ 0 then (some [], p)
  else if (p.available_ports.card : ℤ) < count then (none, p)
  else
    let n := count.toNat
    let block : Option (List ℕ) :=
      match preferred with
      | some ps =>
          if ps ≠ 0 ∧ canAllocateFrom p ps n then some (List.range' ps n)
          else findContiguousBlock p n
      | none => findContiguousBlock p n
    match block with
    | some l =>
        (some l,
          { p with
            allocated_ports := p.allocated_ports ∪ l.toFinset
            available_ports := p.available_ports \ l.toFinset })
    | none => (none, p)

/-- Loop body of `PortPool.deallocate`: a port currently in
`allocated_ports` moves back to `available_ports`; any other port is
ignored. -/
def deallocStep (q : PortPool) (port : ℕ) : PortPool :=
  if port ∈ q.allocated_ports then
    { q with
      allocated_ports := q.allocated_ports.erase port
      available_ports := insert port q.available_ports }
  else q

/-- `PortPool.deallocate(ports)`. -/
def PortPool.deallocate (p : PortPool) (ports : List ℕ) : PortPool :=
  ports.foldl deallocStep p

/-! ## Intelligent port manager (`IntelligentPortManager`) -/

/-- Manager state: `port_pools` and `device_port_mappings`, modelled as
pointwise-lookup maps. -/
structure PortManager where
  port_pools : String → Option PortPool
  device_port_mappings : String → Option (List ℕ)

/-- Point update of the pool map (the in-place mutation of
`self.port_pools[protocol]`). -/
def updatePool (pools : String → Option PortPool) (proto : String) (p : PortPool) :
    String → Option PortPool :=
  fun k => if k = proto then some p else pools k

/-- `IntelligentPortManager.allocate_ports(protocol, device_id, count,
preferred_start)`: fail on a missing pool; return the existing record for an
already-mapped device; otherwise allocate from the pool and record the result
if it is truthy (a non-empty list). -/
def allocatePorts (m : PortManager) (protocol device_id : String) (count : ℤ)
    (preferred : Option ℕ) : Option (List ℕ) × PortManager :=
  match m.port_pools protocol with
  | none => (none, m)
  | some pool =>
    match m.device_port_mappings device_id with
    | some ports => (some ports, m)
    | none =>
      let res := pool.allocate count preferred
      let m2 : PortManager :=
        { port_pools := updatePool m.port_pools protocol res.2
          device_port_mappings :=
            match res.1 with
            | some l =>
                if l.isEmpty then m.device_port_mappings
                else fun k => if k = device_id then some l else m.device_port_mappings k
            | none => m.device_port_mappings }
      (res.1, m2)

/-- `IntelligentPortManager.initialize_pools(port_ranges)`: a fresh pool per
protocol over the configured inclusive range, and no device records.
(Entries whose range is not a two-element list are skipped by the source;
the pair type models a well-formed range.) -/
def initPools (ranges : String → Option (ℕ × ℕ)) : PortManager :=
  { port_pools := fun proto => (ranges proto).map (fun r => mkPortPool r.1 r.2 proto)
    device_port_mappings := fun _ => none }

/-- The temporary pool built by `validate_allocation_plan` for one real pool:
a fresh pool over the same range with the current allocations copied in
(`allocated_ports.add` / `available_ports.discard` per allocated port). -/
def tempCopy (p : PortPool) : PortPool :=
  { start_port := p.start_port
    end_port := p.end_port
    protocol := p.protocol
    allocated_ports := p.allocated_ports
    available_ports := Finset.Icc p.start_port p.end_port \ p.allocated_ports }

/-- The plan-walking loop of `validate_allocation_plan`: allocate each entry
on the temporary pools; `return False` on an unknown protocol or on a falsy
allocation result (Python `if not allocated`, which rejects both `None` and
the empty list). -/
def validatePlanGo (pools : String → Option PortPool) :
    List (String × String × ℤ) → Bool
  | [] => true
  | (_, proto, c) :: rest =>
    match pools proto with
    | none => false
    | some p =>
      let res := p.allocate c none
      match res.1 with
      | some l => if l.isEmpty then false else validatePlanGo (updatePool pools proto res.2) rest
      | none => false

/-- `IntelligentPortManager.validate_allocation_plan(plan)`.  The plan is a
device-id-keyed mapping, modelled in iteration order as a list of
`(device_id, protocol, count)` entries.  The real pools are only read (to
build the temporary copies); they are never written. -/
def validateAllocationPlan (m : PortManager) (plan : List (String × String × ℤ)) : Bool :=
  validatePlanGo (fun proto => (m.port_pools proto).map tempCopy) plan

/-- Claim-side semantics for C1, from the spec's words: executing the
allocations of the plan in order against the current pools, every request
returns a non-null result (`allocate` returns a list, possibly empty). -/
def execPlanAllNonNull (pools : String → Option PortPool) :
    List (String × String × ℤ) → Bool
  | [] => true
  | (_, proto, c) :: rest =>
    match pools proto with
    | none => false
    | some p =>
      let res := p.allocate c none
      match res.1 with
      | some _ => execPlanAllNonNull (updatePool pools proto res.2) rest
      | none => false

/-- Pool invariant of the spec: allocated and available ports are disjoint
and their cardinalities sum to `end − start + 1`. -/
def PoolInv (p : PortPool) : Prop :=
  p.allocated_ports ∩ p.available_ports = ∅ ∧
  (p.allocated_ports.card : ℤ) + p.available_ports.card =
    (p.end_port : ℤ) - p.start_port + 1

instance (p : PortPool) : Decidable (PoolInv p) := by
  unfold PoolInv; infer_instance

/-- Manager invariant used for claim C6: (a) every port recorded for a device
is unavailable in every pool, and (b) the available sets of distinct pools
are pairwise disjoint (port ranges do not overlap across protocols). -/
def ManagerInv (m : PortManager) : Prop :=
  (∀ d rec, m.device_port_mappings d = some rec →
    ∀ proto pool, m.port_pools proto = some pool →
      ∀ x ∈ rec, x ∉ pool.available_ports) ∧
  (∀ p1 p2 pool1 pool2, p1 ≠ p2 → m.port_pools p1 = some pool1 →
    m.port_pools p2 = some pool2 →
      ∀ x ∈ pool1.available_ports, x ∉ pool2.available_ports)

/-! ## Data generator (`IndustrialDataGenerator`) — values and state -/

/-- Abstract mathematical environment: `math.pi`, `math.sin`, `math.cos`
and `time.localtime(t).tm_hour`.  Kept abstract; no claim depends on the
actual values. -/
structure MathEnv where
  piQ : ℚ
  sinQ : ℚ → ℚ
  cosQ : ℚ → ℚ
  localHour : ℚ → ℕ

/-- Values stored in configuration dictionaries, `last_values`, and emitted
snapshots. -/
inductive CVal where
  | num (q : ℚ)
  | str (s : String)
  | boolean (b : Bool)
  | numList (l : List ℚ)
  | strList (l : List String)
  | dict (l : List (String × CVal))

/-- First-match lookup in an association list (Python dict read). -/
def lookupCV (l : List (String × CVal)) (k : String) : Option CVal :=
  (l.find? (fun kv => kv.1 = k)).map (·.2)

/-- `d.get(key, default)` for a numeric value. -/
def getNumD (l : List (String × CVal)) (k : String) (d : ℚ) : ℚ :=
  match lookupCV l k with
  | some (.num q) => q
  | _ => d

/-- `d.get(key, default)` for a string value. -/
def getStrD (l : List (String × CVal)) (k : String) (d : String) : String :=
  match lookupCV l k with
  | some (.str s) => s
  | _ => d

/-- `d.get(key, default)` for a boolean value. -/
def getBoolD (l : List (String × CVal)) (k : String) (d : Bool) : Bool :=
  match lookupCV l k with
  | some (.boolean b) => b
  | _ => d

/-- `d.get(key, {})` for a nested dictionary. -/
def getDictD (l : List (String × CVal)) (k : String) : List (String × CVal) :=
  match lookupCV l k with
  | some (.dict d) => d
  | _ => []

/-- `d.get(key, default)` for a list of numbers (ranges, fault codes, …). -/
def getNumListD (l : List (String × CVal)) (k : String) (d : List ℚ) : List ℚ :=
  match lookupCV l k with
  | some (.numList v) => v
  | _ => d

/-- `d.get(key, default)` for a list of strings (zones, programs, …). -/
def getStrListD (l : List (String × CVal)) (k : String) (d : List String) : List String :=
  match lookupCV l k with
  | some (.strList v) => v
  | _ => d

/-- `key in d`. -/
def hasKey (l : List (String × CVal)) (k : String) : Bool :=
  (lookupCV l k).isSome

/-- `d[key] = v`: overwrite in place if the key exists, else append. -/
def setVal (l : List (String × CVal)) (k : String) (v : CVal) : List (String × CVal) :=
  if hasKey l k then l.map (fun kv => if kv.1 = k then (k, v) else kv)
  else l ++ [(k, v)]

/-- State of one `IndustrialDataGenerator`.  The NumPy `RandomState` is the
pair of the oracle stream `rng_stream` (fixed at construction by the seed)
and the number of draws consumed so far. -/
structure GenState where
  device_id : String
  pattern_config : List (String × CVal)
  start_time : ℚ
  last_values : List (String × CVal)
  drift_accumulator : List (String × ℚ)
  rng_pos : ℕ
  rng_stream : ℕ → ℚ

/-- `IndustrialDataGenerator.__init__`: empty `last_values` and
`drift_accumulator`, `start_time` from the wall clock, and the random state
seeded with `hash(device_id) % 2**32`.  `pyHash` models the process-wide
Python string hash and `streams` maps a 32-bit seed to its draw stream. -/
def mkGenerator (pyHash : String → ℤ) (streams : ℕ → ℕ → ℚ) (dev : String)
    (cfg : List (String × CVal)) (t0 : ℚ) : GenState :=
  { device_id := dev
    pattern_config := cfg
    start_time := t0
    last_values := []
    drift_accumulator := []
    rng_pos := 0
    rng_stream := streams ((pyHash dev) % (2 ^ 32 : ℤ)).toNat }

/-- Consume one draw from the oracle stream. -/
def drawRaw (s : GenState) : ℚ × GenState :=
  (s.rng_stream s.rng_pos, { s with rng_pos := s.rng_pos + 1 })

/-- `random_state.normal(mu, sigma)`. -/
def drawNormal (mu sigma : ℚ) (s : GenState) : ℚ × GenState :=
  let r := drawRaw s
  (mu + sigma * r.1, r.2)

/-- `random_state.uniform(a, b)`. -/
def drawUniform (a b : ℚ) (s : GenState) : ℚ × GenState :=
  let r := drawRaw s
  (a + (b - a) * r.1, r.2)

/-- `random_state.random()`. -/
def drawRandom (s : GenState) : ℚ × GenState :=
  drawRaw s

/-- `random_state.choice(l)` for numeric lists. -/
def drawChoiceQ (l : List ℚ) (s : GenState) : ℚ × GenState :=
  let r := drawRaw s
  (l.getD ((⌊r.1⌋).natAbs % l.length) 0, r.2)

/-- `random_state.choice(l)` for string lists. -/
def drawChoiceS (l : List String) (s : GenState) : String × GenState :=
  let r := drawRaw s
  (l.getD ((⌊r.1⌋).natAbs % l.length) "", r.2)

/-- `random_state.randint(lo, hi)` (NumPy: `hi` exclusive). -/
def drawRandInt (lo hi : ℤ) (s : GenState) : ℤ × GenState :=
  let r := drawRaw s
  (lo + (((⌊r.1⌋).natAbs % (hi - lo).toNat : ℕ) : ℤ), r.2)

/-- Read `last_values.get(k, d)` as a number. -/
def lastNumD (s : GenState) (k : String) (d : ℚ) : ℚ :=
  getNumD s.last_values k d

/-- Read `last_values.get(k, d)` as a string. -/
def lastStrD (s : GenState) (k : String) (d : String) : String :=
  getStrD s.last_values k d

/-- `k in last_values`. -/
def lastHas (s : GenState) (k : String) : Bool :=
  hasKey s.last_values k

/-- Write `last_values[k] = v`. -/
def setLast (s : GenState) (k : String) (v : CVal) : GenState :=
  { s with last_values := setVal s.last_values k v }

/-- Read `drift_accumulator.get(k, d)`. -/
def driftD (s : GenState) (k : String) (d : ℚ) : ℚ :=
  match (s.drift_accumulator.find? (fun kv => kv.1 = k)).map (·.2) with
  | some q => q
  | none => d

/-- `k in drift_accumulator`. -/
def driftHas (s : GenState) (k : String) : Bool :=
  (s.drift_accumulator.find? (fun kv => kv.1 = k)).isSome

/-- Write `drift_accumulator[k] = v`. -/
def setDrift (s : GenState) (k : String) (v : ℚ) : GenState :=
  { s with drift_accumulator :=
      if driftHas s k then s.drift_accumulator.map (fun kv => if kv.1 = k then (k, v) else kv)
      else s.drift_accumulator ++ [(k, v)] }

/-- Parse one `"HH:MM-HH:MM"` heating period and test
`start_hour <= current_hour <= end_hour` (`int` of the part before each
colon).  A malformed field parses as 0, where Python would raise. -/
def inHeatingPeriod (period : String) (hour : ℕ) : Bool :=
  match period.splitOn "-" with
  | [st, en] =>
    let sh := (((st.splitOn ":").headD "").toInt?).getD 0
    let eh := (((en.splitOn ":").headD "").toInt?).getD 0
    decide (sh ≤ (hour : ℤ) ∧ (hour : ℤ) ≤ eh)
  | _ => false

/-- `generate_temperature(config)`: base + daily sinusoid + heating window +
Gaussian noise + accumulated drift, clipped to `temperature_range` and
rounded to 2 decimals.  The unrounded clipped value is stored in
`last_values["temperature"]`. -/
def genTemperature (env : MathEnv) (cfg : List (String × CVal)) (t : ℚ)
    (s0 : GenState) : ℚ × GenState :=
  let elapsed_hours := (t - s0.start_time) / 3600
  let base_temp := getNumD cfg "base_value" 25
  let daily_cycle := getDictD cfg "daily_cycle"
  let daily_variation :=
    if getBoolD daily_cycle "enabled" true then
      let amplitude := getNumD daily_cycle "amplitude" 5
      let peak_hour := getNumD daily_cycle "peak_hour" 14
      let time_of_day := qmod elapsed_hours 24
      let phase_shift := (peak_hour - 6) * env.piQ / 12
      amplitude * env.sinQ (time_of_day * 2 * env.piQ / 24 - phase_shift)
    else 0
  let heating_config := getDictD cfg "industrial_heating"
  let heating_effect :=
    if getBoolD heating_config "enabled" false then
      let current_hour := env.localHour t
      let periods := getStrListD heating_config "heating_periods" ["09:00-17:00"]
      if periods.any (fun period => inHeatingPeriod period current_hour) then
        getNumD heating_config "heating_effect" 10
      else 0
    else 0
  let noise_config := getDictD cfg "noise"
  let noise_std := getNumD noise_config "std_dev" (1/2)
  let n := drawNormal 0 noise_std s0
  let noise := n.1
  let s1 := n.2
  let drift_config := getDictD cfg "sensor_drift"
  let s2 :=
    if getBoolD drift_config "enabled" false then
      let drift_rate := getNumD drift_config "drift_rate" (1/1000)
      let sa := if driftHas s1 "temperature" then s1 else setDrift s1 "temperature" 0
      let sb := setDrift sa "temperature"
        (driftD sa "temperature" 0 + drift_rate * qmod elapsed_hours 1)
      if getStrD drift_config "calibration_reset" "monthly" = "monthly" ∧ elapsed_hours > 720 then
        setDrift sb "temperature" 0
      else sb
    else setDrift s1 "temperature" 0
  let temperature := base_temp + daily_variation + heating_effect + noise +
    driftD s2 "temperature" 0
  let tr := getNumListD cfg "temperature_range" [18, 45]
  let temperature := pyClamp (tr.getD 0 0) (tr.getD 1 0) temperature
  let s3 := setLast s2 "temperature" (.num temperature)
  (pyRoundTo 2 temperature, s3)

/-- `generate_humidity(config)`: base + inverse temperature correlation +
Gaussian variation, clipped to `humidity_range`, rounded to 2 decimals; the
unrounded clipped value is stored in `last_values["humidity"]`. -/
def genHumidity (cfg : List (String × CVal)) (s0 : GenState) : ℚ × GenState :=
  let base_humidity := getNumD cfg "base_value" 45
  let variation := getNumD cfg "variation" 15
  let correlation_factor := getNumD cfg "correlation_factor" (-(3/10))
  let correlated_change :=
    if lastHas s0 "temperature" then
      correlation_factor * (lastNumD s0 "temperature" 0 - 25)
    else 0
  let r := drawNormal 0 (variation / 3) s0
  let humidity := base_humidity + correlated_change + r.1
  let hr := getNumListD cfg "humidity_range" [30, 80]
  let humidity := pyClamp (hr.getD 0 0) (hr.getD 1 0) humidity
  let s1 := setLast r.2 "humidity" (.num humidity)
  (pyRoundTo 2 humidity, s1)

/-- `generate_pressure(config)`: base + cyclic term + Gaussian noise +
load-factor uniform term, clipped to `pressure_range`, rounded to 2 decimals;
the unrounded clipped value is stored in `last_values["pressure"]`. -/
def genPressure (env : MathEnv) (cfg : List (String × CVal)) (t : ℚ)
    (s0 : GenState) : ℚ × GenState :=
  let base_pressure := getNumD cfg "base_value" 150
  let pr := getNumListD cfg "pressure_range" [0, 300]
  let cycle_period := getNumD cfg "cycle_period" 300
  let cycle_amplitude := getNumD cfg "cycle_amplitude" 20
  let cycle_phase := qmod t cycle_period / cycle_period * 2 * env.piQ
  let pressure_cycle := cycle_amplitude * env.sinQ cycle_phase
  let n := drawNormal 0 5 s0
  let load_factor := getNumD cfg "load_factor" 1
  let u := drawUniform (-10) 10 n.2
  let load_variation := load_factor * u.1
  let pressure := base_pressure + pressure_cycle + n.1 + load_variation
  let pressure := pyClamp (pr.getD 0 0) (pr.getD 1 0) pressure
  let s1 := setLast u.2 "pressure" (.num pressure)
  (pyRoundTo 2 pressure, s1)

/-- `generate_flow_rate(config)`: base + pressure correlation + turbulence,
clipped to `flow_range`, rounded to 2 decimals; the unrounded clipped value
is stored in `last_values["flow_rate"]`. -/
def genFlowRate (cfg : List (String × CVal)) (s0 : GenState) : ℚ × GenState :=
  let base_flow := getNumD cfg "base_value" 50
  let fr := getNumListD cfg "flow_range" [10, 150]
  let correlation_factor := getNumD cfg "pressure_correlation" (1/2)
  let flow_adjustment :=
    if lastHas s0 "pressure" then
      correlation_factor * ((lastNumD s0 "pressure" 0 - 150) / 150) * base_flow
    else 0
  let r := drawNormal 0 (base_flow * (5/100)) s0
  let flow_rate := base_flow + flow_adjustment + r.1
  let flow_rate := pyClamp (fr.getD 0 0) (fr.getD 1 0) flow_rate
  let s1 := setLast r.2 "flow_rate" (.num flow_rate)
  (pyRoundTo 2 flow_rate, s1)

/-- `generate_motor_speed(config)`: base × load factor + vibration sinusoid,
clipped to `speed_range`, rounded to 1 decimal; the unrounded clipped value
is stored in `last_values["motor_speed"]`. -/
def genMotorSpeed (env : MathEnv) (cfg : List (String × CVal)) (t : ℚ)
    (s0 : GenState) : ℚ × GenState :=
  let base_speed := getNumD cfg "base_value" 1800
  let sr := getNumListD cfg "speed_range" [0, 3600]
  let load_variation := getNumD cfg "load_variation" (2/100)
  let r := drawNormal 0 load_variation s0
  let load_factor := 1 + r.1
  let vibration_freq := getNumD cfg "vibration_frequency" 50
  let vibration_amplitude := getNumD cfg "vibration_amplitude" 10
  let vibration := vibration_amplitude * env.sinQ (2 * env.piQ * vibration_freq * t)
  let motor_speed := base_speed * load_factor + vibration
  let motor_speed := pyClamp (sr.getD 0 0) (sr.getD 1 0) motor_speed
  let s1 := setLast r.2 "motor_speed" (.num motor_speed)
  (pyRoundTo 1 motor_speed, s1)

/-- `generate_motor_torque(config)`: speed-adjusted base + Gaussian load
noise, clipped to `torque_range`, rounded to 2 decimals; the unrounded
clipped value is stored in `last_values["motor_torque"]`. -/
def genMotorTorque (cfg : List (String × CVal)) (s0 : GenState) : ℚ × GenState :=
  let base_torque := getNumD cfg "base_value" 100
  let tr := getNumListD cfg "torque_range" [0, 500]
  let torque_adjustment :=
    if lastHas s0 "motor_speed" then
      base_torque * ((12/10) - (lastNumD s0 "motor_speed" 0 / 1800) * (4/10))
    else base_torque
  let r := drawNormal 0 (base_torque * (1/10)) s0
  let torque := torque_adjustment + r.1
  let torque := pyClamp (tr.getD 0 0) (tr.getD 1 0) torque
  let s1 := setLast r.2 "motor_torque" (.num torque)
  (pyRoundTo 2 torque, s1)

/-- `generate_power_consumption(config)`: `T·ω/9549` when speed and torque
are known (else base), times a Gaussian efficiency, plus electrical noise,
clipped to `power_range`, rounded to 2 decimals; the unrounded clipped value
is stored in `last_values["power"]`. -/
def genPowerConsumption (cfg : List (String × CVal)) (s0 : GenState) : ℚ × GenState :=
  let base_power0 := getNumD cfg "base_value" 25
  let pr := getNumListD cfg "power_range" [0, 100]
  let base_power :=
    if lastHas s0 "motor_speed" ∧ lastHas s0 "motor_torque" then
      lastNumD s0 "motor_torque" 0 * lastNumD s0 "motor_speed" 0 / 9549
    else base_power0
  let e := drawNormal (95/100) (5/100) s0
  let n := drawNormal 0 (base_power * (2/100)) e.2
  let power := base_power * e.1 + n.1
  let power := pyClamp (pr.getD 0 0) (pr.getD 1 0) power
  let s1 := setLast n.2 "power" (.num power)
  (pyRoundTo 2 power, s1)

/-- `generate_fault_code(config)`: with probability `fault_probability`
choose a non-zero configured fault code, else 0. -/
def genFaultCode (cfg : List (String × CVal)) (s0 : GenState) : ℚ × GenState :=
  let fault_probability := getNumD cfg "fault_probability" (1/1000)
  let possible_faults := getNumListD cfg "fault_codes" [0, 1, 2, 5, 8, 10]
  let r := drawRandom s0
  if r.1 < fault_probability then
    let fault_codes := possible_faults.filter (fun c => c ≠ 0)
    if fault_codes.isEmpty then (0, r.2)
    else drawChoiceQ fault_codes r.2
  else (0, r.2)

/-- `generate_air_quality(config)` for environmental sensors: AQI, CO₂,
TVOC and atmospheric pressure. -/
def genAirQuality (env : MathEnv) (cfg : List (String × CVal)) (t : ℚ)
    (s0 : GenState) : List (String × CVal) × GenState :=
  let base_aqi := getNumD cfg "base_aqi" 50
  let current_hour := env.localHour t
  let work_factor : ℚ := if 9 ≤ current_hour ∧ current_hour ≤ 17 then 13/10 else 8/10
  let n1 := drawNormal 0 10 s0
  let aqi := pyClamp 0 500 (base_aqi * work_factor + n1.1)
  let n2 := drawNormal 0 50 n1.2
  let co2 := 400 + aqi * 5 + n2.1
  let n3 := drawNormal 0 20 n2.2
  let tvoc := 50 + aqi * 2 + n3.1
  let base_pressure := getNumD cfg "base_pressure" (101325/100)
  let n4 := drawNormal 0 5 n3.2
  let pressure := base_pressure + n4.1
  ([("air_quality_index", .num (pyRoundTo 0 aqi)),
    ("co2_ppm", .num (pyRoundTo 0 (max 350 co2))),
    ("tvoc_ppb", .num (pyRoundTo 0 (max 0 tvoc))),
    ("pressure_hpa", .num (pyRoundTo 2 pressure))], n4.2)

/-- `generate_energy_meter_data(config)`: voltage, load-dependent current,
power, cumulative energy and frequency. -/
def genEnergyMeterData (env : MathEnv) (cfg : List (String × CVal)) (t : ℚ)
    (s0 : GenState) : List (String × CVal) × GenState :=
  let base_voltage := getNumD cfg "base_voltage" 230
  let vr := getNumListD cfg "voltage_range" [220, 240]
  let base_current := getNumD cfg "base_current" 20
  let cr := getNumListD cfg "current_range" [0, 100]
  let nv := drawNormal 0 2 s0
  let voltage := pyClamp (vr.getD 0 0) (vr.getD 1 0) (base_voltage + nv.1)
  let current_hour := env.localHour t
  let load_factor : ℚ := if 8 ≤ current_hour ∧ current_hour ≤ 18 then 3/2 else 1/2
  let nc := drawNormal 0 5 nv.2
  let current := pyClamp (cr.getD 0 0) (cr.getD 1 0) (base_current * load_factor + nc.1)
  let pfr := getNumListD cfg "power_factor_range" [85/100, 99/100]
  let pf := drawUniform (pfr.getD 0 0) (pfr.getD 1 0) nc.2
  let power := voltage * current * pf.1 / 1000
  let s1 := if lastHas pf.2 "energy_kwh" then pf.2
    else setLast pf.2 "energy_kwh" (.num (getNumD cfg "initial_energy" 10000))
  let s2 := setLast s1 "energy_kwh" (.num (lastNumD s1 "energy_kwh" 0 + power * (1/3600)))
  let nf := drawNormal 0 (1/20) s2
  let frequency := 50 + nf.1
  ([("voltage_v", .num (pyRoundTo 1 voltage)),
    ("current_a", .num (pyRoundTo 1 current)),
    ("power_kw", .num (pyRoundTo 2 power)),
    ("power_factor", .num (pyRoundTo 2 pf.1)),
    ("frequency_hz", .num (pyRoundTo 2 frequency)),
    ("energy_kwh", .num (pyRoundTo 1 (lastNumD s2 "energy_kwh" 0))),
    ("phase", .str (getStrD cfg "phase" "L1"))], nf.2)

/-- `generate_asset_tracker_data(config)`: zone changes, battery drain, RSSI,
motion detection, gateway and persistent asset id.  The `or` in the zone test
short-circuits: when no zone is stored, `random()` is not called. -/
def genAssetTrackerData (env : MathEnv) (cfg : List (String × CVal)) (t : ℚ)
    (s0 : GenState) : List (String × CVal) × GenState :=
  let zones := getStrListD cfg "zone_ids" ["zone_a", "zone_b", "zone_c", "warehouse"]
  let s1 :=
    if ¬ lastHas s0 "current_zone" then
      let z := drawChoiceS zones s0
      setLast z.2 "current_zone" (.str z.1)
    else
      let r := drawRandom s0
      if r.1 < 1/10 then
        let z := drawChoiceS zones r.2
        setLast z.2 "current_zone" (.str z.1)
      else r.2
  let s2 := if lastHas s1 "battery" then s1 else setLast s1 "battery" (.num 100)
  let drain_rate := getNumD cfg "battery_drain_rate" (1/1000)
  let s3 := setLast s2 "battery" (.num (lastNumD s2 "battery" 0 - drain_rate))
  let s4 := setLast s3 "battery" (.num (max 0 (lastNumD s3 "battery" 0)))
  let base_rssi := getNumD cfg "base_rssi" (-60)
  let nr := drawNormal 0 10 s4
  let rssi := max (-100) (min (-30) (base_rssi + nr.1))
  let current_hour := env.localHour t
  let motion_probability : ℚ := if 8 ≤ current_hour ∧ current_hour ≤ 18 then 7/10 else 3/10
  let rm := drawRandom nr.2
  let motion_detected := decide (rm.1 < motion_probability)
  let gateways := getStrListD cfg "gateways" ["gateway_01", "gateway_02", "gateway_03"]
  let gw := drawChoiceS gateways rm.2
  let s5 :=
    if lastHas gw.2 "asset_id" then gw.2
    else
      let asset_num := drawRandInt 1000 9999 gw.2
      setLast asset_num.2 "asset_id"
        (.str (getStrD cfg "asset_prefix" "ASSET" ++ "-" ++ toString asset_num.1))
  ([("asset_id", .str (lastStrD s5 "asset_id" "")),
    ("zone_id", .str (lastStrD s5 "current_zone" "")),
    ("rssi", .num (pyRoundTo 0 rssi)),
    ("battery_percent", .num (pyRoundTo 1 (lastNumD s5 "battery" 0))),
    ("motion_detected", .boolean motion_detected),
    ("last_seen_gateway", .str gw.1)], s5)

/-- The CNC state-transition block (`generate_cnc_machine_data`, state-aware
transitions keyed on the per-tick roll and the `state_ticks` age). -/
def cncNextState (state : String) (ticks roll : ℚ) : String :=
  if state = "RUNNING" then
    if roll < 5/1000 then "ERROR"
    else if roll < 15/1000 then "IDLE"
    else state
  else if state = "IDLE" then
    if roll < 15/100 then "RUNNING"
    else if roll < 18/100 then "SETUP"
    else state
  else if state = "ERROR" then
    if ticks > 5 ∧ roll < 25/100 then "IDLE" else state
  else if state = "SETUP" then
    if ticks > 3 ∧ roll < 20/100 then "RUNNING" else state
  else state

/-- `generate_cnc_machine_data(config)`: state machine, spindle/feed ramps,
tool wear with forced SETUP above 90 %, part count and axis positions.  The
returned `machine_state` is the local `state` variable read after the
probabilistic transition, before any tool-wear override. -/
def genCncMachineData (env : MathEnv) (cfg : List (String × CVal)) (t : ℚ)
    (s0 : GenState) : List (String × CVal) × GenState :=
  let speed_range := getNumListD cfg "spindle_speed_range" [0, 24000]
  let feed_range := getNumListD cfg "feed_rate_range" [0, 15000]
  let s1 :=
    if ¬ lastHas s0 "machine_state" then
      setLast (setLast s0 "machine_state" (.str "RUNNING")) "state_ticks" (.num 0)
    else s0
  let s2 := setLast s1 "state_ticks" (.num (lastNumD s1 "state_ticks" 0 + 1))
  let state0 := lastStrD s2 "machine_state" ""
  let ticks := lastNumD s2 "state_ticks" 0
  let r := drawRandom s2
  let state1 := cncNextState state0 ticks r.1
  let s3 :=
    if state1 = state0 then r.2
    else setLast (setLast r.2 "machine_state" (.str state1)) "state_ticks" (.num 0)
  let s4 :=
    if state0 = "SETUP" ∧ state1 = "RUNNING" then
      let programs := getStrListD cfg "programs" ["G-Code_001", "G-Code_002", "G-Code_003"]
      let pgm := drawChoiceS programs s3
      setLast pgm.2 "program_name" (.str pgm.1)
    else s3
  let state := lastStrD s4 "machine_state" ""
  let base_speed := getNumD cfg "base_spindle_speed" 12000
  let sp :=
    if state = "RUNNING" then
      let n := drawNormal 0 (base_speed * (3/100)) s4
      let target_speed := base_speed + n.1
      let last_speed := lastNumD n.2 "spindle_speed" (base_speed * (1/2))
      let v := last_speed + (target_speed - last_speed) * (3/10)
      (pyClamp (speed_range.getD 0 0) (speed_range.getD 1 0) v, n.2)
    else if state = "SETUP" then drawUniform 500 2000 s4
    else (max 0 (lastNumD s4 "spindle_speed" 0 * (7/10)), s4)
  let s5 := setLast sp.2 "spindle_speed" (.num sp.1)
  let base_feed := getNumD cfg "base_feed_rate" 5000
  let fd :=
    if state = "RUNNING" then
      let n := drawNormal 0 (base_feed * (5/100)) s5
      let target_feed := base_feed + n.1
      let last_feed := lastNumD n.2 "feed_rate" (base_feed * (1/2))
      let v := last_feed + (target_feed - last_feed) * (3/10)
      (pyClamp (feed_range.getD 0 0) (feed_range.getD 1 0) v, n.2)
    else if state = "SETUP" then drawUniform 100 500 s5
    else (max 0 (lastNumD s5 "feed_rate" 0 * (7/10)), s5)
  let s6 := setLast fd.2 "feed_rate" (.num fd.1)
  let s7 :=
    if ¬ lastHas s6 "tool_wear" then
      let w := drawUniform 0 30 s6
      setLast w.2 "tool_wear" (.num w.1)
    else s6
  let s8 :=
    if state = "RUNNING" then
      let wear_rate := getNumD cfg "tool_wear_rate" (1/100)
      let n := drawNormal 0 (3/1000) s7
      setLast n.2 "tool_wear" (.num (lastNumD n.2 "tool_wear" 0 + wear_rate + n.1))
    else s7
  let s9 :=
    if lastNumD s8 "tool_wear" 0 > 90 then
      setLast (setLast (setLast s8 "tool_wear" (.num 0)) "machine_state" (.str "SETUP"))
        "state_ticks" (.num 0)
    else s8
  let tool_wear := max 0 (min 100 (lastNumD s9 "tool_wear" 0))
  let s10 := if lastHas s9 "part_count" then s9 else setLast s9 "part_count" (.num 0)
  let pc :=
    if state = "RUNNING" then
      let r2 := drawRandom s10
      if r2.1 < 8/100 then
        (setLast r2.2 "part_count" (.num (lastNumD r2.2 "part_count" 0 + 1)))
      else r2.2
    else s10
  let workspace := getNumListD cfg "workspace_mm" [500, 400, 300]
  let ax :=
    if state = "RUNNING" then
      (workspace.getD 0 0 / 2 + (workspace.getD 0 0 / 3) * env.sinQ (t * (1/2)),
       workspace.getD 1 0 / 2 + (workspace.getD 1 0 / 3) * env.cosQ (t * (4/10)),
       workspace.getD 2 0 / 2 + (workspace.getD 2 0 / 4) * env.sinQ (t * (7/10)), pc)
    else
      let nx := drawNormal 0 (1/2) pc
      let ny := drawNormal 0 (1/2) nx.2
      let nz := drawNormal 0 (1/2) ny.2
      (workspace.getD 0 0 / 2 + nx.1,
       workspace.getD 1 0 / 2 + ny.1,
       workspace.getD 2 0 * (9/10) + nz.1, nz.2)
  let sAx := ax.2.2.2
  let s11 :=
    if ¬ lastHas sAx "program_name" then
      let programs := getStrListD cfg "programs" ["G-Code_001", "G-Code_002", "G-Code_003"]
      let pgm := drawChoiceS programs sAx
      setLast pgm.2 "program_name" (.str pgm.1)
    else sAx
  ([("spindle_speed_rpm", .num (pyRoundTo 1 sp.1)),
    ("feed_rate_mm_min", .num (pyRoundTo 1 fd.1)),
    ("tool_wear_percent", .num (pyRoundTo 1 tool_wear)),
    ("part_count", .num (pyInt (lastNumD s11 "part_count" 0) : ℤ)),
    ("axis_position_x", .num (pyRoundTo 2 ax.1)),
    ("axis_position_y", .num (pyRoundTo 2 ax.2.1)),
    ("axis_position_z", .num (pyRoundTo 2 ax.2.2.1)),
    ("program_name", .str (lastStrD s11 "program_name" "")),
    ("machine_state", .str state)], s11)

/-- The PLC mode-transition block of `generate_plc_controller_data`. -/
def plcNextMode (mode : String) (roll : ℚ) : String :=
  if mode = "AUTO" then
    if roll < 5/1000 then "MANUAL"
    else if roll < 8/1000 then "CASCADE"
    else mode
  else if mode = "MANUAL" then
    if roll < 8/100 then "AUTO" else mode
  else if mode = "CASCADE" then
    if roll < 3/100 then "AUTO" else mode
  else mode

/-- `generate_plc_controller_data(config)`: mode transitions, occasional
setpoint drift, and a PID update of the process value in AUTO/CASCADE. -/
def genPlcControllerData (cfg : List (String × CVal)) (s0 : GenState) :
    List (String × CVal) × GenState :=
  let pv_range := getNumListD cfg "process_value_range" [0, 100]
  let setpoint := getNumD cfg "setpoint" 50
  let kp := getNumD cfg "kp" 1
  let ki := getNumD cfg "ki" (1/10)
  let kd := getNumD cfg "kd" (1/20)
  let s1 :=
    if ¬ lastHas s0 "plc_mode" then
      let n := drawNormal 0 5 s0
      setLast (setLast (setLast (setLast (setLast n.2
        "plc_mode" (.str "AUTO"))
        "integral_term" (.num 0))
        "last_error" (.num 0))
        "process_value" (.num (setpoint + n.1)))
        "setpoint_target" (.num setpoint)
    else s0
  let r := drawRandom s1
  let mode0 := lastStrD r.2 "plc_mode" ""
  let mode1 := plcNextMode mode0 r.1
  let s2 := if mode1 = mode0 then r.2 else setLast r.2 "plc_mode" (.str mode1)
  let mode := lastStrD s2 "plc_mode" ""
  let rs := drawRandom s2
  let s3 :=
    if rs.1 < 1/100 then
      let u := drawUniform (-5) 5 rs.2
      setLast u.2 "setpoint_target"
        (.num (max (pv_range.getD 0 0 + 10) (min (pv_range.getD 1 0 - 10) (setpoint + u.1))))
    else rs.2
  let active_setpoint := lastNumD s3 "setpoint_target" 0
  let nd := drawNormal 0 2 s3
  let pv0 := lastNumD nd.2 "process_value" 0 + nd.1
  let step :=
    if mode = "AUTO" ∨ mode = "CASCADE" then
      let error := active_setpoint - pv0
      let integral := max (-50) (min 50 (lastNumD nd.2 "integral_term" 0 + error * ki))
      let sa := setLast nd.2 "integral_term" (.num integral)
      let derivative := error - lastNumD sa "last_error" 0
      let control_output := max 0 (min 100 (kp * error + integral + kd * derivative))
      let pv1 := pv0 + control_output * (1/10) - 5
      (pv1, control_output, setLast sa "last_error" (.num error))
    else
      let n2 := drawNormal 0 1 nd.2
      (pv0 + n2.1, getNumD cfg "manual_output" 50, n2.2)
  let pv := pyClamp (pv_range.getD 0 0) (pv_range.getD 1 0) step.1
  let s4 := setLast step.2.2 "process_value" (.num pv)
  let high_alarm_threshold := getNumD cfg "high_alarm" (pv_range.getD 1 0 * (9/10))
  let low_alarm_threshold :=
    getNumD cfg "low_alarm" (pv_range.getD 0 0 + pv_range.getD 1 0 * (1/10))
  ([("process_value", .num (pyRoundTo 2 pv)),
    ("setpoint", .num (pyRoundTo 2 active_setpoint)),
    ("control_output", .num (pyRoundTo 2 step.2.1)),
    ("mode", .str mode),
    ("high_alarm", .boolean (decide (pv > high_alarm_threshold))),
    ("low_alarm", .boolean (decide (pv < low_alarm_threshold))),
    ("integral_term", .num (pyRoundTo 3 (lastNumD s4 "integral_term" 0))),
    ("derivative_term", .num (pyRoundTo 3 (lastNumD s4 "last_error" 0 * kd))),
    ("error", .num (pyRoundTo 2 (active_setpoint - pv)))], s4)

/-- The robot state-transition block of `generate_robot_data`
(src/data_patterns/industrial_patterns.py, the state-aware transitions):
from RUNNING, `roll < 0.008` goes to PAUSED and otherwise the code tests
`roll < 0.003` for STOPPED; PAUSED and STOPPED recover to RUNNING behind
age gates. -/
def robotNextState (state : String) (ticks roll : ℚ) : String :=
  if state = "RUNNING" then
    if roll < 8/1000 then "PAUSED"
    else if roll < 3/1000 then "STOPPED"
    else state
  else if state = "PAUSED" then
    if ticks > 3 ∧ roll < 20/100 then "RUNNING" else state
  else if state = "STOPPED" then
    if ticks > 5 ∧ roll < 12/100 then "RUNNING" else state
  else state

/-- Draw `n` uniform values on `[a, b)` in sequence (the per-joint target
refresh). -/
def drawUniformList (n : ℕ) (a b : ℚ) (s : GenState) : List ℚ × GenState :=
  (List.range n).foldl
    (fun acc _ =>
      let u := drawUniform a b acc.2
      (acc.1 ++ [u.1], u.2)) ([], s)

/-- The per-joint motion loop of `generate_robot_data`: each joint steps at
most 3° toward its target plus Gaussian jitter. -/
def robotMoveJoints (jc : ℕ) (targets angles : List ℚ) (s : GenState) :
    List ℚ × GenState :=
  (List.range jc).foldl
    (fun acc i =>
      let target := targets.getD i 0
      let current := acc.1.getD i 0
      let diff := target - current
      let step := min (abs diff) 3 * (if diff > 0 then 1 else -1)
      let n := drawNormal 0 (15/100) acc.2
      (acc.1.set i (current + step + n.1), n.2)) (angles, s)

/-- Read `last_values[k]` as a numeric list. -/
def lastNumListD (s : GenState) (k : String) (d : List ℚ) : List ℚ :=
  getNumListD s.last_values k d

/-- `generate_robot_data(config)`: state machine, joint motion toward
targets with cycle counting, TCP pose, cycle time, payload and speed. -/
def genRobotData (env : MathEnv) (cfg : List (String × CVal)) (t : ℚ)
    (s0 : GenState) : List (String × CVal) × GenState :=
  let joint_count := (pyInt (getNumD cfg "joint_count" 6)).toNat
  let max_speed := getNumD cfg "max_speed_percent" 100
  let s1 :=
    if ¬ lastHas s0 "robot_state" then
      let tg := drawUniformList joint_count (-180) 180 s0
      setLast (setLast (setLast (setLast tg.2
        "robot_state" (.str "RUNNING"))
        "cycle_count" (.num 0))
        "robot_state_ticks" (.num 0))
        "joint_targets" (.numList tg.1)
    else s0
  let s2 := setLast s1 "robot_state_ticks" (.num (lastNumD s1 "robot_state_ticks" 0 + 1))
  let state0 := lastStrD s2 "robot_state" ""
  let ticks := lastNumD s2 "robot_state_ticks" 0
  let r := drawRandom s2
  let state1 := robotNextState state0 ticks r.1
  let s3 :=
    if state1 = state0 then r.2
    else setLast (setLast r.2 "robot_state" (.str state1)) "robot_state_ticks" (.num 0)
  let state := lastStrD s3 "robot_state" ""
  let s4 :=
    if ¬ lastHas s3 "joint_angles" then
      setLast s3 "joint_angles" (.numList (List.replicate joint_count 0))
    else s3
  let s5 :=
    if state = "RUNNING" then
      let mv := robotMoveJoints joint_count (lastNumListD s4 "joint_targets" [])
        (lastNumListD s4 "joint_angles" []) s4
      let sa := setLast mv.2 "joint_angles" (.numList mv.1)
      let at_target := (List.range joint_count).all (fun i =>
        decide (abs ((lastNumListD sa "joint_angles" []).getD i 0 -
          (lastNumListD sa "joint_targets" []).getD i 0) < 5))
      if at_target then
        let tg := drawUniformList joint_count (-180) 180 sa
        let sb := setLast tg.2 "joint_targets" (.numList tg.1)
        setLast sb "cycle_count" (.num (lastNumD sb "cycle_count" 0 + 1))
      else sa
    else s4
  let joint_angles := (lastNumListD s5 "joint_angles" []).map (pyRoundTo 2)
  let tcp :=
    if state = "RUNNING" then
      let nx := drawNormal 0 2 s5
      let ny := drawNormal 0 2 nx.2
      let nz := drawNormal 0 2 ny.2
      (500 + 300 * env.sinQ (t * (6/10)) + nx.1,
       200 + 200 * env.cosQ (t * (1/2)) + ny.1,
       400 + 150 * env.sinQ (t * (7/10)) + nz.1, nz.2)
    else
      let nx := drawNormal 0 (3/10) s5
      let ny := drawNormal 0 (3/10) nx.2
      let nz := drawNormal 0 (3/10) ny.2
      (500 + nx.1, 200 + ny.1, 600 + nz.1, nz.2)
  let s6 := tcp.2.2.2
  let tcp_rx := 180 + 10 * env.sinQ (t * (3/10))
  let tcp_ry := 5 * env.cosQ (t * (4/10))
  let tcp_rz := 90 + 5 * env.sinQ (t * (1/2))
  let base_cycle_time := getNumD cfg "base_cycle_time" 15
  let nct := drawNormal 0 (base_cycle_time * (8/100)) s6
  let cycle_time := max 5 (base_cycle_time + nct.1)
  let payload_range := getNumListD cfg "payload_range" [0, 20]
  let s7 :=
    if ¬ lastHas nct.2 "payload" then
      let u := drawUniform (payload_range.getD 0 0) (payload_range.getD 1 0) nct.2
      setLast u.2 "payload" (.num u.1)
    else nct.2
  let rp := drawRandom s7
  let s8 :=
    if rp.1 < 5/100 then
      let u := drawUniform (payload_range.getD 0 0) (payload_range.getD 1 0) rp.2
      setLast u.2 "payload" (.num u.1)
    else rp.2
  let sp :=
    if state = "RUNNING" then
      let u := drawUniform 0 (max_speed * (15/100)) s8
      (max_speed * (85/100) + u.1, u.2)
    else if state = "PAUSED" then ((0 : ℚ), s8)
    else ((0 : ℚ), s8)
  ([("joint_angles", .numList joint_angles),
    ("tcp_position_x", .num (pyRoundTo 2 tcp.1)),
    ("tcp_position_y", .num (pyRoundTo 2 tcp.2.1)),
    ("tcp_position_z", .num (pyRoundTo 2 tcp.2.2.1)),
    ("tcp_orientation_rx", .num (pyRoundTo 2 tcp_rx)),
    ("tcp_orientation_ry", .num (pyRoundTo 2 tcp_ry)),
    ("tcp_orientation_rz", .num (pyRoundTo 2 tcp_rz)),
    ("program_state", .str state),
    ("cycle_time_s", .num (pyRoundTo 2 cycle_time)),
    ("cycle_count", .num (pyInt (lastNumD sp.2 "cycle_count" 0) : ℤ)),
    ("payload_kg", .num (pyRoundTo 1 (lastNumD sp.2 "payload" 0))),
    ("speed_percent", .num (pyRoundTo 1 sp.1))], sp.2)

/-- `generate_device_data(device_type)` at wall-clock instant `t`: the
common-field preamble (timestamp, device id, device type) extended by the
device-type-specific fields.  For `pressure_transmitter`, the alarm entries
of the dict literal call `data.get(...)` on the preamble dict — the literal
is fully evaluated before `data.update(...)` runs, so the lookups of
`"pressure"` and `"flow_rate"` miss and fall back to the default `0`.  For
`cnc_machine` / `plc_controller` / `industrial_robot`, the sub-configuration
defaults to the whole `pattern_config`.  An unrecognized type returns the
bare preamble. -/
def genDeviceData (env : MathEnv) (s : GenState) (device_type : String) (t : ℚ) :
    List (String × CVal) × GenState :=
  let data : List (String × CVal) :=
    [("timestamp", .num t), ("device_id", .str s.device_id),
     ("device_type", .str device_type)]
  if device_type = "temperature_sensor" then
    let temp_config := getDictD s.pattern_config "temperature"
    let humidity_config := getDictD s.pattern_config "humidity"
    let tv := genTemperature env temp_config t s
    let hv := genHumidity humidity_config tv.2
    (data ++ [("temperature", .num tv.1), ("humidity", .num hv.1),
      ("sensor_status", .num 0), ("sensor_healthy", .boolean true)], hv.2)
  else if device_type = "pressure_transmitter" then
    let pressure_config := getDictD s.pattern_config "pressure"
    let flow_config := getDictD s.pattern_config "flow_rate"
    let pv := genPressure env pressure_config t s
    let fv := genFlowRate flow_config pv.2
    let thresholds := getDictD pressure_config "alarm_thresholds"
    let high_alarm := decide (getNumD data "pressure" 0 > getNumD thresholds "high_pressure" 250)
    let low_flow_alarm := decide (getNumD data "flow_rate" 0 < getNumD thresholds "low_flow" 20)
    (data ++ [("pressure", .num pv.1), ("flow_rate", .num fv.1),
      ("high_alarm", .boolean high_alarm),
      ("low_flow_alarm", .boolean low_flow_alarm)], fv.2)
  else if device_type = "motor_drive" then
    let motor_config := getDictD s.pattern_config "motor"
    let sv := genMotorSpeed env motor_config t s
    let tv := genMotorTorque motor_config sv.2
    let pw := genPowerConsumption motor_config tv.2
    let fc := genFaultCode motor_config pw.2
    (data ++ [("speed", .num sv.1), ("torque", .num tv.1),
      ("power", .num pw.1), ("fault_code", .num fc.1)], fc.2)
  else if device_type = "environmental_sensor" then
    let temp_config := getDictD s.pattern_config "temperature"
    let humidity_config := getDictD s.pattern_config "humidity"
    let air_quality_config := getDictD s.pattern_config "air_quality"
    let tv := genTemperature env temp_config t s
    let hv := genHumidity humidity_config tv.2
    let aq := genAirQuality env air_quality_config t hv.2
    (data ++ [("temperature", .num tv.1), ("humidity", .num hv.1)] ++ aq.1, aq.2)
  else if device_type = "energy_meter" then
    let energy_config := getDictD s.pattern_config "energy"
    let em := genEnergyMeterData env energy_config t s
    (data ++ em.1, em.2)
  else if device_type = "asset_tracker" then
    let tracker_config := getDictD s.pattern_config "tracker"
    let tr := genAssetTrackerData env tracker_config t s
    (data ++ tr.1, tr.2)
  else if device_type = "generic_sensor" then
    let temp_config := getDictD s.pattern_config "temperature"
    let humidity_config := getDictD s.pattern_config "humidity"
    let tv := genTemperature env temp_config t s
    let hv := genHumidity humidity_config tv.2
    (data ++ [("temperature", .num tv.1), ("humidity", .num hv.1)], hv.2)
  else if device_type = "cnc_machine" then
    let cnc_config :=
      match lookupCV s.pattern_config "cnc" with
      | some (.dict d) => d
      | _ => s.pattern_config
    let cn := genCncMachineData env cnc_config t s
    (data ++ cn.1, cn.2)
  else if device_type = "plc_controller" then
    let plc_config :=
      match lookupCV s.pattern_config "plc" with
      | some (.dict d) => d
      | _ => s.pattern_config
    let pl := genPlcControllerData plc_config s
    (data ++ pl.1, pl.2)
  else if device_type = "industrial_robot" then
    let robot_config :=
      match lookupCV s.pattern_config "robot" with
      | some (.dict d) => d
      | _ => s.pattern_config
    let rb := genRobotData env robot_config t s
    (data ++ rb.1, rb.2)
  else (data, s)

/-- The closed set of device types recognized by `generate_device_data`. -/
def knownDeviceTypes : List String :=
  ["temperature_sensor", "pressure_transmitter", "motor_drive",
   "environmental_sensor", "energy_meter", "asset_tracker", "generic_sensor",
   "cnc_machine", "plc_controller", "industrial_robot"]

/-- Drive a generator through a sequence of update ticks at the given
wall-clock instants, collecting the emitted snapshots. -/
def runTicks (env : MathEnv) (s : GenState) (device_type : String) :
    List ℚ → List (List (String × CVal))
  | [] => []
  | t :: ts =>
    let r := genDeviceData env s device_type t
    r.1 :: runTicks env r.2 device_type ts

/-! ## Modbus device register update
(`ModbusDevice` in src/protocols/industrial/modbus/modbus_simulator.py) -/

/-- `ModbusDevice._extract_device_type`. -/
def extractDeviceType (template : String) : String :=
  if template = "industrial_temperature_sensor" then "temperature_sensor"
  else if template = "hydraulic_pressure_sensor" then "pressure_transmitter"
  else if template = "variable_frequency_drive" then "motor_drive"
  else "generic"

/-- Modbus data context: the first 100 holding registers and the first 100
discrete inputs (the banks touched by the update tick). -/
structure ModbusRegisters where
  hr : List ℤ
  di : List Bool

/-- `ModbusDevice._create_modbus_context`: zero-initialized banks. -/
def mkModbusContext : ModbusRegisters :=
  ⟨List.replicate 100 0, List.replicate 100 false⟩

/-- `context.setValues(fx, address, values)`: overwrite the slice starting
at `address`. -/
def setValuesList {α : Type} (regs : List α) (addr : ℕ) (vals : List α) : List α :=
  regs.take addr ++ vals ++ regs.drop (addr + vals.length)

/-- One `_update_registers_with_realistic_data` tick: pull a snapshot from
the generator and write the device-type-specific register map.  Scaled
values are stored with Python `int(...)`, i.e. truncation. -/
def updateRegistersTick (env : MathEnv) (gen : GenState) (device_type : String)
    (t : ℚ) (regs : ModbusRegisters) : ModbusRegisters × GenState :=
  let dd := genDeviceData env gen device_type t
  let snap := dd.1
  if device_type = "temperature_sensor" then
    let temp_scaled := pyInt (getNumD snap "temperature" 0 * 100)
    let humidity_scaled := pyInt (getNumD snap "humidity" 0 * 100)
    let status := pyInt (getNumD snap "sensor_status" 0)
    let healthy := getBoolD snap "sensor_healthy" false
    ({ hr := setValuesList regs.hr 0 [temp_scaled, humidity_scaled, status]
       di := setValuesList regs.di 0 [healthy] }, dd.2)
  else if device_type = "pressure_transmitter" then
    let pressure_scaled := pyInt (getNumD snap "pressure" 0 * 100)
    let flow_scaled := pyInt (getNumD snap "flow_rate" 0 * 100)
    let high_alarm := getBoolD snap "high_alarm" false
    let low_flow_alarm := getBoolD snap "low_flow_alarm" false
    ({ hr := setValuesList regs.hr 0 [pressure_scaled, flow_scaled]
       di := setValuesList regs.di 0 [high_alarm, low_flow_alarm] }, dd.2)
  else if device_type = "motor_drive" then
    let speed := pyInt (getNumD snap "speed" 0)
    let torque_scaled := pyInt (getNumD snap "torque" 0 * 100)
    let power_scaled := pyInt (getNumD snap "power" 0 * 100)
    let fault_code := pyInt (getNumD snap "fault_code" 0)
    ({ hr := setValuesList regs.hr 0 [speed, torque_scaled, power_scaled, fault_code]
       di := regs.di }, dd.2)
  else (regs, dd.2)

/-! ## Concrete sample objects used by witnesses and counterexamples -/

/-- A concrete mathematical environment (the claims do not depend on it). -/
def sampleEnv : MathEnv :=
  ⟨0, fun _ => 0, fun _ => 0, fun _ => 0⟩

/-- A concrete generator instance. -/
def sampleGen : GenState :=
  mkGenerator (fun _ => 0) (fun _ _ => 0) "dev" [] 0

/-- A manager with a single small mqtt pool and no allocations, as built for
an MQTT-only configuration. -/
def mqttPoolManager : PortManager :=
  { port_pools := fun k => if k = "mqtt" then some (mkPortPool 1883 1885 "mqtt") else none
    device_port_mappings := fun _ => none }

/-- A manager with a single small modbus pool and no allocations. -/
def modbusPoolManager : PortManager :=
  { port_pools := fun k => if k = "modbus" then some (mkPortPool 5020 5024 "modbus") else none
    device_port_mappings := fun _ => none }

/-- Oracle stream for the C2 counterexample: the first draw (pressure noise,
`normal(0, 5)`) returns 150, the second (the load uniform on `[-10, 10)`)
returns the midpoint 0, the third (flow turbulence) returns 0. -/
def c2Stream : ℕ → ℚ :=
  fun n => if n = 0 then 30 else if n = 1 then 1/2 else 0

/-- Generator instance for the C2 counterexample (default configuration). -/
def c2Gen : GenState :=
  mkGenerator (fun _ => 0) (fun _ => c2Stream) "press_dev" [] 0

/-! ## Claim theorems -/

/-- C3: in the industrial-robot state machine, no value of the per-tick
uniform roll moves the state from RUNNING to STOPPED: the `elif roll < 0.003`
branch is only reached when `roll ≥ 0.008`, so the set of rolls that reach
STOPPED is empty (its measure is 0, not the claimed 0.003). -/
theorem robot_running_to_stopped_unreachable (ticks roll : ℚ) :
    robotNextState "RUNNING" ticks roll ≠ "STOPPED" := by
  unfold robotNextState
  rw [if_pos rfl]
  by_cases h : roll < 8/1000
  · rw [if_pos h]; decide
  · have h2 : ¬ roll < 3/1000 := fun h3 => h (h3.trans (by norm_num))
    rw [if_neg h, if_neg h2]
    decide

/-- C8: `generate_device_data` is total, and on any device-type string
outside the closed set of known types it returns exactly the common-field
preamble (timestamp, device id, device type) with an unchanged generator
state. -/
theorem unknown_device_type_preamble (env : MathEnv) (s : GenState)
    (dt : String) (t : ℚ) (h : dt ∉ knownDeviceTypes) :
    genDeviceData env s dt t =
      ([("timestamp", .num t), ("device_id", .str s.device_id),
        ("device_type", .str dt)], s) := by
  unfold knownDeviceTypes at h
  simp only [List.mem_cons, List.not_mem_nil, or_false, not_or] at h
  obtain ⟨h1, h2, h3, h4, h5, h6, h7, h8, h9, h10⟩ := h
  unfold genDeviceData
  rw [if_neg h1, if_neg h2, if_neg h3, if_neg h4, if_neg h5, if_neg h6,
    if_neg h7, if_neg h8, if_neg h9, if_neg h10]

/-- Witness for C8 at the concrete unknown type `"hvac_unit"`. -/
theorem unknown_device_type_preamble_witness :
    "hvac_unit" ∉ knownDeviceTypes ∧
    genDeviceData sampleEnv sampleGen "hvac_unit" 7 =
      ([("timestamp", .num 7), ("device_id", .str "dev"),
        ("device_type", .str "hvac_unit")], sampleGen) :=
  ⟨by decide, unknown_device_type_preamble sampleEnv sampleGen "hvac_unit" 7 (by decide)⟩

/-- C7: generator determinism.  Two generator instances constructed from the
same device id, the same pattern configuration and the same construction
instant (hence the same seed and draw stream), driven through the same
wall-clock tick instants, emit identical snapshot sequences for every device
type and tick count. -/
theorem generator_determinism (pyHash : String → ℤ) (streams : ℕ → ℕ → ℚ)
    (env : MathEnv) (dev : String) (cfg : List (String × CVal)) (t0 : ℚ)
    (g1 g2 : GenState) (dt : String) (ts : List ℚ)
    (h1 : g1 = mkGenerator pyHash streams dev cfg t0)
    (h2 : g2 = mkGenerator pyHash streams dev cfg t0) :
    runTicks env g1 dt ts = runTicks env g2 dt ts := by
  subst h1; subst h2; rfl

/-- Witness for C7: two concrete instances over three ticks. -/
theorem generator_determinism_witness :
    runTicks sampleEnv (mkGenerator (fun _ => 0) (fun _ _ => 0) "dev" [] 0)
        "industrial_robot" [1, 2, 3] =
      runTicks sampleEnv (mkGenerator (fun _ => 0) (fun _ _ => 0) "dev" [] 0)
        "industrial_robot" [1, 2, 3] :=
  generator_determinism (fun _ => 0) (fun _ _ => 0) sampleEnv "dev" [] 0 _ _
    "industrial_robot" [1, 2, 3] rfl rfl

/-- C1 (divergence witness): for the plan an MQTT manager produces — every
entry carries count 0 — executing the allocations in order returns the
non-null empty list for each entry, yet `validate_allocation_plan` returns
`False`, because `if not allocated` treats the empty list like the null
failure sentinel.  The real pools are untouched by construction
(`validateAllocationPlan` only reads them to build the temporary copies). -/
theorem validate_plan_rejects_zero_count_plan :
    validateAllocationPlan mqttPoolManager [("mqtt_plc_sensors_000", "mqtt", 0)] = false ∧
    execPlanAllNonNull mqttPoolManager.port_pools
      [("mqtt_plc_sensors_000", "mqtt", 0)] = true := by
  constructor <;> rfl

/-- C2 (divergence witness): a pressure-transmitter snapshot whose generated
pressure is 300 (above the default high threshold 250) and whose generated
flow rate is 75 (above the default low threshold 20), yet `high_alarm` is
emitted as `false` and `low_flow_alarm` as `true`: the alarm fields compare
the dict-lookup default 0 with the thresholds, not the generated values. -/
theorem pressure_alarms_ignore_generated_values :
    getNumD (genDeviceData sampleEnv c2Gen "pressure_transmitter" 0).1 "pressure" 0 = 300 ∧
    getNumD (genDeviceData sampleEnv c2Gen "pressure_transmitter" 0).1 "flow_rate" 0 = 75 ∧
    getBoolD (genDeviceData sampleEnv c2Gen "pressure_transmitter" 0).1 "high_alarm" true
      = false ∧
    getBoolD (genDeviceData sampleEnv c2Gen "pressure_transmitter" 0).1 "low_flow_alarm" false
      = true := by
  refine ⟨?_, ?_, ?_, ?_⟩ <;>
    norm_num [genDeviceData, genPressure, genFlowRate, getDictD, getNumD, getBoolD,
      getNumListD, getStrD, lookupCV, c2Gen, sampleEnv, mkGenerator, drawNormal,
      drawUniform, drawRaw, c2Stream, qmod, pyClamp, pyRoundTo, rndHalfEven,
      setLast, setVal, hasKey, lastHas, lastNumD, List.find?, List.lookup] <;>
    decide

/-! ## Port pool: structural lemmas -/

/-- Unfold a successful contiguous-block search: the result is a block
`range' s count` whose ports are all available and whose start was found by
`find?` over the truncated sorted available list. -/
theorem findContiguousBlock_some {p : PortPool} {count : ℕ} {l : List ℕ}
    (h : findContiguousBlock p count = some l) :
    ∃ s, ((p.available_ports.sort (· ≤ ·)).take
        ((p.available_ports.card : ℤ) - count + 1).toNat).find?
          (fun s => blockFree p s count) = some s ∧
      l = List.range' s count := by
  unfold findContiguousBlock at h
  rcases hf : ((p.available_ports.sort (· ≤ ·)).take
      ((p.available_ports.card : ℤ) - count + 1).toNat).find?
        (fun s => blockFree p s count) with _ | s
  · rw [hf] at h; simp at h
  · rw [hf] at h; simp at h
    exact ⟨s, rfl, h.symm⟩

/-- A free block is made of available ports. -/
theorem blockFree_mem {p : PortPool} {s count : ℕ} (h : blockFree p s count = true) :
    ∀ x ∈ List.range' s count, x ∈ p.available_ports := by
  intro x hx
  have := List.all_eq_true.mp h x hx
  simpa using this

/-- Case analysis of `PortPool.allocate`: either the nonpositive-count early
return, or a failure leaving the pool unchanged, or a successful contiguous
block drawn from the available ports. -/
theorem PortPool.allocate_cases (p : PortPool) (c : ℤ) (pref : Option ℕ) :
    (c ≤ 0 ∧ p.allocate c pref = (some [], p)) ∨
    (p.allocate c pref = (none, p)) ∨
    (∃ s, 0 < c ∧ (∀ x ∈ List.range' s c.toNat, x ∈ p.available_ports) ∧
      p.allocate c pref = (some (List.range' s c.toNat),
        { p with
          allocated_ports := p.allocated_ports ∪ (List.range' s c.toNat).toFinset
          available_ports := p.available_ports \ (List.range' s c.toNat).toFinset })) := by
  by_cases hc : c ≤ 0
  · left
    refine ⟨hc, ?_⟩
    unfold PortPool.allocate
    rw [if_pos hc]
  · right
    by_cases hcard : (p.available_ports.card : ℤ) < c
    · left
      unfold PortPool.allocate
      rw [if_neg hc, if_pos hcard]
    · have hpos : 0 < c := lt_of_not_le hc
      rcases pref with _ | ps
      · rcases hfb : findContiguousBlock p c.toNat with _ | l
        · left
          unfold PortPool.allocate
          rw [if_neg hc, if_neg hcard]
          simp only [hfb]
        · right
          obtain ⟨s, hfind, hl⟩ := findContiguousBlock_some hfb
          have hbf : blockFree p s c.toNat = true := by
            simpa using List.find?_some hfind
          subst hl
          refine ⟨s, hpos, blockFree_mem hbf, ?_⟩
          unfold PortPool.allocate
          rw [if_neg hc, if_neg hcard]
          simp only [hfb]
      · by_cases hps : ps ≠ 0 ∧ canAllocateFrom p ps c.toNat = true
        · right
          refine ⟨ps, hpos, ?_, ?_⟩
          · intro x hx
            have hsub := of_decide_eq_true hps.2
            exact hsub (List.mem_toFinset.mpr hx)
          · unfold PortPool.allocate
            rw [if_neg hc, if_neg hcard]
            simp only [if_pos hps]
        · rcases hfb : findContiguousBlock p c.toNat with _ | l
          · left
            unfold PortPool.allocate
            rw [if_neg hc, if_neg hcard]
            simp only [if_neg hps, hfb]
          · right
            obtain ⟨s, hfind, hl⟩ := findContiguousBlock_some hfb
            have hbf : blockFree p s c.toNat = true := by
              simpa using List.find?_some hfind
            subst hl
            refine ⟨s, hpos, blockFree_mem hbf, ?_⟩
            unfold PortPool.allocate
            rw [if_neg hc, if_neg hcard]
            simp only [if_neg hps, hfb]

/-- Writing a pool back under its own key leaves the pool map unchanged. -/
theorem updatePool_self (pools : String → Option PortPool) (proto : String)
    (pool : PortPool) (hp : pools proto = some pool) :
    updatePool pools proto pool = pools := by
  funext k
  unfold updatePool
  by_cases hk : k = proto
  · subst hk; rw [if_pos rfl, hp]
  · rw [if_neg hk]

/-- `PortPool.allocate` with a nonpositive count is the identity returning
`[]`. -/
theorem pool_allocate_nonpos (p : PortPool) (c : ℤ) (pref : Option ℕ)
    (hc : c ≤ 0) : p.allocate c pref = (some [], p) := by
  unfold PortPool.allocate
  rw [if_pos hc]

/-- `allocate_ports` with a nonpositive count for a fresh device returns
`[]` and the unchanged manager. -/
theorem allocatePorts_nonpos (m : PortManager) (proto dev : String)
    (pool : PortPool) (c : ℤ) (pref : Option ℕ) (hc : c ≤ 0)
    (hp : m.port_pools proto = some pool)
    (hd : m.device_port_mappings dev = none) :
    allocatePorts m proto dev c pref = (some [], m) := by
  unfold allocatePorts
  rw [hp, hd]
  simp only [pool_allocate_nonpos pool c pref hc, List.isEmpty,
    updatePool_self m.port_pools proto pool hp, if_true]

/-- C10: a nonpositive count makes `PortPool.allocate` return the empty list
(not the null sentinel) without touching the pool, and
`IntelligentPortManager.allocate_ports` likewise returns the empty list,
leaves every pool unchanged, and records no allocation for the device. -/
theorem allocate_nonpositive_count :
    (∀ (p : PortPool) (c : ℤ) (pref : Option ℕ), c ≤ 0 →
      p.allocate c pref = (some [], p)) ∧
    (∀ (m : PortManager) (proto dev : String) (pool : PortPool) (c : ℤ)
      (pref : Option ℕ), c ≤ 0 → m.port_pools proto = some pool →
      m.device_port_mappings dev = none →
      allocatePorts m proto dev c pref = (some [], m)) :=
  ⟨pool_allocate_nonpos,
   fun m proto dev pool c pref hc hp hd =>
     allocatePorts_nonpos m proto dev pool c pref hc hp hd⟩

/-- Witness for C10 at count `-3` on a concrete manager. -/
theorem allocate_nonpositive_count_witness :
    (mkPortPool 5020 5024 "modbus").allocate (-3) none =
      (some [], mkPortPool 5020 5024 "modbus") ∧
    allocatePorts modbusPoolManager "modbus" "dev" (-3) none =
      (some [], modbusPoolManager) := by
  constructor
  · exact allocate_nonpositive_count.1 _ _ _ (by norm_num)
  · exact allocate_nonpositive_count.2 modbusPoolManager "modbus" "dev"
      (mkPortPool 5020 5024 "modbus") (-3) none (by norm_num) rfl rfl

/-- C9: `allocate_ports` is idempotent per device id.  Whenever the device
has an allocation record after a first call, a second call with identical
arguments returns exactly the first call's result and leaves the whole
manager state (all pools and records) unchanged. -/
theorem allocate_ports_idempotent (m : PortManager) (proto dev : String)
    (c : ℤ) (pref : Option ℕ)
    (h : ((allocatePorts m proto dev c pref).2.device_port_mappings dev).isSome = true) :
    allocatePorts (allocatePorts m proto dev c pref).2 proto dev c pref =
      allocatePorts m proto dev c pref := by
  rcases hp : m.port_pools proto with _ | pool
  · simp [allocatePorts, hp]
  · rcases hd : m.device_port_mappings dev with _ | rec
    · rcases hr : (pool.allocate c pref).1 with _ | l
      · exfalso
        simp [allocatePorts, hp, hd, hr] at h
      · by_cases hl : l.isEmpty
        · exfalso
          simp [allocatePorts, hp, hd, hr, hl] at h
        · simp [allocatePorts, hp, hd, hr, hl, updatePool]
    · simp [allocatePorts, hp, hd]

/-- One deallocation step preserves the pool invariant. -/
theorem deallocStep_inv (p : PortPool) (port : ℕ) (h : PoolInv p) :
    PoolInv (deallocStep p port) := by
  unfold deallocStep
  by_cases hmem : port ∈ p.allocated_ports
  · rw [if_pos hmem]
    obtain ⟨hdisj, hcard⟩ := h
    have hnotV : port ∉ p.available_ports := by
      intro hV
      have hx : port ∈ p.allocated_ports ∩ p.available_ports :=
        Finset.mem_inter.mpr ⟨hmem, hV⟩
      rw [hdisj] at hx
      exact absurd hx (Finset.not_mem_empty port)
    constructor
    · apply Finset.eq_empty_iff_forall_not_mem.mpr
      intro x hx
      simp only [Finset.mem_inter, Finset.mem_erase, Finset.mem_insert] at hx
      obtain ⟨⟨hxne, hxA⟩, hxV⟩ := hx
      rcases hxV with rfl | hxV
      · exact hxne rfl
      · have hx2 : x ∈ p.allocated_ports ∩ p.available_ports :=
          Finset.mem_inter.mpr ⟨hxA, hxV⟩
        rw [hdisj] at hx2
        exact absurd hx2 (Finset.not_mem_empty x)
    · simp only [Finset.card_erase_of_mem hmem, Finset.card_insert_of_not_mem hnotV]
      have hA1 : 1 ≤ p.allocated_ports.card :=
        Nat.one_le_iff_ne_zero.mpr (Finset.card_ne_zero_of_mem hmem)
      omega
  · rw [if_neg hmem]
    exact h

/-- C5: the pool invariant — allocated and available ports are disjoint and
their sizes sum to `end − start + 1` — holds after construction (for a
well-formed range, `start ≤ end + 1`) and is preserved by every `allocate`
and every `deallocate`, including deallocations naming ports that are not
currently allocated. -/
theorem pool_invariant :
    (∀ (s e : ℕ) (proto : String), s ≤ e + 1 → PoolInv (mkPortPool s e proto)) ∧
    (∀ (p : PortPool) (c : ℤ) (pref : Option ℕ), PoolInv p →
      PoolInv (p.allocate c pref).2) ∧
    (∀ (p : PortPool) (ports : List ℕ), PoolInv p →
      PoolInv (p.deallocate ports)) := by
  refine ⟨?_, ?_, ?_⟩
  · intro s e proto hse
    constructor
    · simp [mkPortPool]
    · simp only [mkPortPool, Finset.card_empty, Nat.card_Icc]
      omega
  · intro p c pref hInv
    rcases PortPool.allocate_cases p c pref with ⟨_, heq⟩ | heq | ⟨s, _, hmem, heq⟩
    · rw [heq]; exact hInv
    · rw [heq]; exact hInv
    · rw [heq]
      obtain ⟨hdisj, hcard⟩ := hInv
      have hsub : (List.range' s c.toNat).toFinset ⊆ p.available_ports := by
        intro x hx
        exact hmem x (List.mem_toFinset.mp hx)
      constructor
      · apply Finset.eq_empty_iff_forall_not_mem.mpr
        intro x hx
        simp only [Finset.mem_inter, Finset.mem_union, Finset.mem_sdiff] at hx
        obtain ⟨hAL, hV, hnL⟩ := hx
        rcases hAL with hA | hL
        · have hx2 : x ∈ p.allocated_ports ∩ p.available_ports :=
            Finset.mem_inter.mpr ⟨hA, hV⟩
          rw [hdisj] at hx2
          exact absurd hx2 (Finset.not_mem_empty x)
        · exact hnL hL
      · have hALdisj : Disjoint p.allocated_ports (List.range' s c.toNat).toFinset := by
          rw [Finset.disjoint_left]
          intro x hA hL
          have hx2 : x ∈ p.allocated_ports ∩ p.available_ports :=
            Finset.mem_inter.mpr ⟨hA, hsub hL⟩
          rw [hdisj] at hx2
          exact absurd hx2 (Finset.not_mem_empty x)
        have hLle : (List.range' s c.toNat).toFinset.card ≤ p.available_ports.card :=
          Finset.card_le_card hsub
        simp only [Finset.card_union_of_disjoint hALdisj, Finset.card_sdiff hsub]
        omega
  · intro p ports hInv
    induction ports generalizing p with
    | nil => exact hInv
    | cons port rest ih =>
      have hstep := deallocStep_inv p port hInv
      show PoolInv (List.foldl deallocStep (deallocStep p port) rest)
      exact ih (deallocStep p port) hstep

/-- Witness for C5: invariant after construction of a 3-port pool, after an
allocation of 2 ports, and after deallocating a port that is not
allocated. -/
theorem pool_invariant_witness :
    PoolInv (mkPortPool 10 12 "x") ∧
    PoolInv ((mkPortPool 10 12 "x").allocate 2 (some 10)).2 ∧
    PoolInv ((mkPortPool 10 12 "x").deallocate [11, 99]) :=
  ⟨pool_invariant.1 10 12 "x" (by norm_num),
   pool_invariant.2.1 _ 2 (some 10) (pool_invariant.1 10 12 "x" (by norm_num)),
   pool_invariant.2.2 _ [11, 99] (pool_invariant.1 10 12 "x" (by norm_num))⟩

/-- Witness for C9: a first allocation of one port at preferred start 5022,
followed by an identical second call. -/
theorem allocate_ports_idempotent_witness :
    allocatePorts (allocatePorts modbusPoolManager "modbus" "dev" 1 (some 5022)).2
        "modbus" "dev" 1 (some 5022) =
      allocatePorts modbusPoolManager "modbus" "dev" 1 (some 5022) :=
  allocate_ports_idempotent modbusPoolManager "modbus" "dev" 1 (some 5022) (by decide)

/-! ## Modbus register rounding (C4) -/

/-- Round-half-even of an integer is that integer. -/
theorem rndHalfEven_intCast (n : ℤ) : rndHalfEven (n : ℚ) = n := by
  unfold rndHalfEven
  norm_num

/-- Python `int` truncation of an integer is that integer. -/
theorem pyInt_intCast (n : ℤ) : pyInt (n : ℚ) = n := by
  unfold pyInt
  by_cases h : (0 : ℚ) ≤ (n : ℚ)
  · rw [if_pos h, Int.floor_intCast]
  · rw [if_neg h, Int.ceil_intCast]

/-- A value already rounded to 2 decimals, scaled by 100, is an integer. -/
theorem pyRoundTo_two_mul_100 (x : ℚ) :
    pyRoundTo 2 x * 100 = (rndHalfEven (x * 100) : ℚ) := by
  unfold pyRoundTo
  norm_num

/-- On snapshot values (2-decimal rationals) scaled by 100, Python's `int`
truncation agrees with mathematical rounding to the nearest integer. -/
theorem pyInt_round_agree (x : ℚ) :
    pyInt (pyRoundTo 2 x * 100) = round (pyRoundTo 2 x * 100) := by
  rw [pyRoundTo_two_mul_100, pyInt_intCast, round_intCast]

/-- The temperature-sensor snapshot, spelled out. -/
theorem tempSensor_snapshot (env : MathEnv) (gen : GenState) (t : ℚ) :
    (genDeviceData env gen "temperature_sensor" t).1 =
      [("timestamp", .num t), ("device_id", .str gen.device_id),
       ("device_type", .str "temperature_sensor"),
       ("temperature",
         .num (genTemperature env (getDictD gen.pattern_config "temperature") t gen).1),
       ("humidity",
         .num (genHumidity (getDictD gen.pattern_config "humidity")
           (genTemperature env (getDictD gen.pattern_config "temperature") t gen).2).1),
       ("sensor_status", .num 0), ("sensor_healthy", .boolean true)] := rfl

/-- The register state written by a temperature-sensor tick, spelled out. -/
theorem tempSensor_tick_registers (env : MathEnv) (gen : GenState) (t : ℚ)
    (regs : ModbusRegisters) :
    (updateRegistersTick env gen "temperature_sensor" t regs).1 =
      { hr := setValuesList regs.hr 0
          [pyInt (getNumD (genDeviceData env gen "temperature_sensor" t).1 "temperature" 0 * 100),
           pyInt (getNumD (genDeviceData env gen "temperature_sensor" t).1 "humidity" 0 * 100),
           pyInt (getNumD (genDeviceData env gen "temperature_sensor" t).1 "sensor_status" 0)]
        di := setValuesList regs.di 0
          [getBoolD (genDeviceData env gen "temperature_sensor" t).1 "sensor_healthy" false] } :=
  rfl

/-- C4: after every temperature-sensor update tick of a Modbus device, the
register banks satisfy `HR[0] = round(temperature · 100)`,
`HR[1] = round(humidity · 100)`, `HR[2] = sensor_status` and
`DI[0] = sensor_healthy`, where temperature and humidity are the values of
the snapshot written in that tick.  The code stores `int(value * 100)`
(truncation), but snapshot values are rounded to 2 decimals, so the scaled
value is an integer and truncation coincides with rounding for every real
input. -/
theorem modbus_temperature_tick_registers (env : MathEnv) (gen : GenState)
    (t : ℚ) (regs : ModbusRegisters) :
    ((updateRegistersTick env gen "temperature_sensor" t regs).1.hr.getD 0 0 =
      round (getNumD (genDeviceData env gen "temperature_sensor" t).1 "temperature" 0 * 100)) ∧
    ((updateRegistersTick env gen "temperature_sensor" t regs).1.hr.getD 1 0 =
      round (getNumD (genDeviceData env gen "temperature_sensor" t).1 "humidity" 0 * 100)) ∧
    (((updateRegistersTick env gen "temperature_sensor" t regs).1.hr.getD 2 0 : ℚ) =
      getNumD (genDeviceData env gen "temperature_sensor" t).1 "sensor_status" 0) ∧
    ((updateRegistersTick env gen "temperature_sensor" t regs).1.di.getD 0 false =
      getBoolD (genDeviceData env gen "temperature_sensor" t).1 "sensor_healthy" false) := by
  have htemp : getNumD (genDeviceData env gen "temperature_sensor" t).1 "temperature" 0 =
      (genTemperature env (getDictD gen.pattern_config "temperature") t gen).1 := by
    rw [tempSensor_snapshot]
    simp [getNumD, lookupCV]
  have hhum : getNumD (genDeviceData env gen "temperature_sensor" t).1 "humidity" 0 =
      (genHumidity (getDictD gen.pattern_config "humidity")
        (genTemperature env (getDictD gen.pattern_config "temperature") t gen).2).1 := by
    rw [tempSensor_snapshot]
    simp [getNumD, lookupCV]
  have hstatus : getNumD (genDeviceData env gen "temperature_sensor" t).1 "sensor_status" 0 = 0 := by
    rw [tempSensor_snapshot]
    simp [getNumD, lookupCV]
  have hhealthy : getBoolD (genDeviceData env gen "temperature_sensor" t).1
      "sensor_healthy" false = true := by
    rw [tempSensor_snapshot]
    simp [getBoolD, lookupCV]
  refine ⟨?_, ?_, ?_, ?_⟩
  · rw [tempSensor_tick_registers]
    show pyInt (getNumD (genDeviceData env gen "temperature_sensor" t).1 "temperature" 0 * 100) =
      round (getNumD (genDeviceData env gen "temperature_sensor" t).1 "temperature" 0 * 100)
    rw [htemp]
    exact pyInt_round_agree _
  · rw [tempSensor_tick_registers]
    show pyInt (getNumD (genDeviceData env gen "temperature_sensor" t).1 "humidity" 0 * 100) =
      round (getNumD (genDeviceData env gen "temperature_sensor" t).1 "humidity" 0 * 100)
    rw [hhum]
    exact pyInt_round_agree _
  · rw [tempSensor_tick_registers]
    show (pyInt (getNumD (genDeviceData env gen "temperature_sensor" t).1 "sensor_status" 0) : ℚ) =
      getNumD (genDeviceData env gen "temperature_sensor" t).1 "sensor_status" 0
    rw [hstatus]
    norm_num [pyInt]
  · rw [tempSensor_tick_registers]
    show getBoolD (genDeviceData env gen "temperature_sensor" t).1 "sensor_healthy" false =
      getBoolD (genDeviceData env gen "temperature_sensor" t).1 "sensor_healthy" false
    rfl

/-! ## Contiguous-block search: the found block has the lowest fitting start -/

/-- `blockFree` unfolded to membership of every block port. -/
theorem blockFree_iff (p : PortPool) (u n : ℕ) :
    blockFree p u n = true ↔ ∀ x ∈ List.range' u n, x ∈ p.available_ports := by
  simp [blockFree, List.all_eq_true]

/-- On a strictly sorted list, `find?` returns a minimal element among those
satisfying the predicate. -/
theorem sorted_lt_find_min {L : List ℕ} (h : L.Sorted (· < ·)) {p : ℕ → Bool}
    {s : ℕ} (hf : L.find? p = some s) {t : ℕ} (ht : t ∈ L) (hp : p t = true) :
    s ≤ t := by
  induction L with
  | nil => simp at hf
  | cons x xs ih =>
    obtain ⟨hx, hxs⟩ := List.sorted_cons.mp h
    by_cases hpx : p x = true
    · rw [List.find?_cons_of_pos _ hpx] at hf
      obtain rfl : x = s := by simpa using hf
      rcases List.mem_cons.mp ht with rfl | htt
      · exact le_refl _
      · exact (hx t htt).le
    · rw [List.find?_cons_of_neg _ hpx] at hf
      rcases List.mem_cons.mp ht with rfl | htt
      · exact absurd hp hpx
      · exact ih hxs hf htt

/-- On a strictly sorted list, an element with at least `m` successors
(counting itself) lies in any prefix that leaves fewer than `m` elements
out. -/
theorem mem_take_of_sorted {L : List ℕ} (h : L.Sorted (· < ·)) {t : ℕ}
    (ht : t ∈ L) {m k : ℕ}
    (hm : m ≤ (L.filter (fun x => decide (t ≤ x))).length)
    (hk : L.length + 1 ≤ k + m) : t ∈ L.take k := by
  induction L generalizing k with
  | nil => simp at ht
  | cons x xs ih =>
    obtain ⟨hx, hxs⟩ := List.sorted_cons.mp h
    rcases k with _ | k2
    · exfalso
      have hle := List.length_filter_le (fun x => decide (t ≤ x)) (x :: xs)
      omega
    · rw [List.take_succ_cons]
      rcases List.mem_cons.mp ht with rfl | htt
      · exact List.mem_cons_self _ _
      · have hxt : x < t := hx t htt
        have hfx : (decide (t ≤ x)) = false := by
          simp only [decide_eq_false_iff_not]
          omega
        rw [List.filter_cons_of_neg (by simp [hfx])] at hm
        have hk2 : xs.length + 1 ≤ k2 + m := by
          simp only [List.length_cons] at hk
          omega
        exact List.mem_cons_of_mem _ (ih hxs htt hm hk2)

/-- A free block of `n` ports starting at `u` guarantees at least `n`
available ports that are `≥ u`. -/
theorem blockFree_le_filter_length (p : PortPool) {u n : ℕ}
    (hu : blockFree p u n = true) :
    n ≤ ((p.available_ports.sort (· ≤ ·)).filter
      (fun x => decide (u ≤ x))).length := by
  have hsub : ∀ x ∈ List.range' u n,
      x ∈ (p.available_ports.sort (· ≤ ·)).filter (fun x => decide (u ≤ x)) := by
    intro x hx
    rw [List.mem_filter]
    refine ⟨?_, ?_⟩
    · rw [Finset.mem_sort]
      exact blockFree_mem hu x hx
    · have hx2 := List.mem_range'_1.mp hx
      simp only [decide_eq_true_eq]
      omega
  calc n = (List.range' u n).length := (List.length_range' _ _ _).symm
    _ = (List.range' u n).toFinset.card :=
        (List.toFinset_card_of_nodup (List.nodup_range' _ _)).symm
    _ ≤ (((p.available_ports.sort (· ≤ ·)).filter
          (fun x => decide (u ≤ x))).toFinset).card := by
        apply Finset.card_le_card
        intro x hx
        exact List.mem_toFinset.mpr (hsub x (List.mem_toFinset.mp hx))
    _ ≤ _ := List.toFinset_card_le _

/-- A successful contiguous-block search returns the block whose start is
the lowest among all starts of entirely-available blocks of the requested
size. -/
theorem findContiguousBlock_min (p : PortPool) {n : ℕ} (hn : 0 < n)
    {l : List ℕ} (h : findContiguousBlock p n = some l) :
    ∃ s, l = List.range' s n ∧ blockFree p s n = true ∧
      ∀ u, blockFree p u n = true → s ≤ u := by
  obtain ⟨s, hfind, hl⟩ := findContiguousBlock_some h
  have hbf : blockFree p s n = true := by simpa using List.find?_some hfind
  refine ⟨s, hl, hbf, ?_⟩
  intro u hu
  have hsorted : (p.available_ports.sort (· ≤ ·)).Sorted (· < ·) :=
    Finset.sort_sorted_lt _
  have huL : u ∈ p.available_ports.sort (· ≤ ·) := by
    rw [Finset.mem_sort]
    refine blockFree_mem hu u (List.mem_range'_1.mpr ⟨le_refl u, ?_⟩)
    omega
  have hfilter := blockFree_le_filter_length p hu
  have hlen : (p.available_ports.sort (· ≤ ·)).length = p.available_ports.card :=
    Finset.length_sort _
  have hcard : n ≤ p.available_ports.card := by
    have hle := List.length_filter_le (fun x => decide (u ≤ x))
      (p.available_ports.sort (· ≤ ·))
    omega
  have hmem_take : u ∈ (p.available_ports.sort (· ≤ ·)).take
      (((p.available_ports.card : ℤ) - n + 1).toNat) := by
    refine mem_take_of_sorted hsorted huL hfilter ?_
    omega
  have htakesorted : ((p.available_ports.sort (· ≤ ·)).take
      (((p.available_ports.card : ℤ) - n + 1).toNat)).Sorted (· < ·) :=
    List.Pairwise.sublist (List.take_sublist _ _) hsorted
  exact sorted_lt_find_min htakesorted hfind hmem_take hu

/-- When the block starting at port 0 is entirely available, the search
returns it (port 0 is necessarily the smallest available port). -/
theorem findContiguousBlock_zero (p : PortPool) {n : ℕ} (hn : 0 < n)
    (hcard : n ≤ p.available_ports.card) (hbf : blockFree p 0 n = true) :
    findContiguousBlock p n = some (List.range' 0 n) := by
  have h0 : (0 : ℕ) ∈ p.available_ports := by
    refine blockFree_mem hbf 0 (List.mem_range'_1.mpr ⟨le_refl 0, ?_⟩)
    omega
  have h0L : (0 : ℕ) ∈ p.available_ports.sort (· ≤ ·) := by
    rw [Finset.mem_sort]; exact h0
  have hsorted : (p.available_ports.sort (· ≤ ·)).Sorted (· < ·) :=
    Finset.sort_sorted_lt _
  have hlen : (p.available_ports.sort (· ≤ ·)).length = p.available_ports.card :=
    Finset.length_sort _
  unfold findContiguousBlock
  rcases hLc : p.available_ports.sort (· ≤ ·) with _ | ⟨x, xs⟩
  · rw [hLc] at h0L; simp at h0L
  · rw [hLc] at h0L hsorted
    obtain ⟨hx, _⟩ := List.sorted_cons.mp hsorted
    have hx0 : x = 0 := by
      rcases List.mem_cons.mp h0L with h | h
      · exact h.symm
      · exact absurd (hx 0 h) (Nat.not_lt_zero x)
    obtain ⟨k2, hk2⟩ : ∃ k2, ((p.available_ports.card : ℤ) - n + 1).toNat = k2 + 1 := by
      refine ⟨((p.available_ports.card : ℤ) - n + 1).toNat - 1, ?_⟩
      omega
    rw [hk2, List.take_succ_cons, hx0]
    have hfind : List.find? (fun s => blockFree p s n) (0 :: List.take k2 xs) = some 0 := by
      rw [List.find?_cons_of_pos]
      exact hbf
    rw [hfind]
    rfl

/-- `_can_allocate_from` (a Finset-subset test) agrees with the pointwise
block-availability test. -/
theorem canAllocateFrom_iff (p : PortPool) (s n : ℕ) :
    canAllocateFrom p s n = true ↔ ∀ x ∈ List.range' s n, x ∈ p.available_ports := by
  unfold canAllocateFrom
  rw [decide_eq_true_eq]
  constructor
  · intro hsub x hx
    exact hsub (List.mem_toFinset.mpr hx)
  · intro hmem x hx
    exact hmem x (List.mem_toFinset.mp hx)

/-- C6 (amended to fresh devices): a successful `allocate_ports` call for a
device with no existing record returns a list of exactly `count` contiguous,
strictly increasing ports, none of which appear in any other device's
record; when `preferred_start` names an entirely available block that block
is returned, and otherwise the entirely-available block with the lowest
start is returned. -/
theorem allocate_ports_fresh_spec (m : PortManager) (proto dev : String)
    (pool : PortPool) (c : ℤ) (pref : Option ℕ) (l : List ℕ) (m2 : PortManager)
    (hInv : ManagerInv m) (hp : m.port_pools proto = some pool)
    (hd : m.device_port_mappings dev = none) (hc : 0 < c)
    (hres : allocatePorts m proto dev c pref = (some l, m2)) :
    l.length = c.toNat ∧
    (∃ s, l = List.range' s c.toNat) ∧
    (∀ d rec, d ≠ dev → m.device_port_mappings d = some rec →
      ∀ x ∈ l, x ∉ rec) ∧
    (∀ ps, pref = some ps →
      (∀ x ∈ List.range' ps c.toNat, x ∈ pool.available_ports) →
      l = List.range' ps c.toNat) ∧
    ((pref = none ∨ ∃ ps, pref = some ps ∧
        ¬ ∀ x ∈ List.range' ps c.toNat, x ∈ pool.available_ports) →
      ∃ s, l = List.range' s c.toNat ∧
        (∀ x ∈ List.range' s c.toNat, x ∈ pool.available_ports) ∧
        ∀ u, (∀ x ∈ List.range' u c.toNat, x ∈ pool.available_ports) → s ≤ u) := by
  have hfst : (allocatePorts m proto dev c pref).1 = (pool.allocate c pref).1 := by
    unfold allocatePorts
    rw [hp, hd]
  have hl0 : (pool.allocate c pref).1 = some l := by
    rw [← hfst, hres]
  have hnle : ¬ c ≤ 0 := not_le.mpr hc
  have hnpos : 0 < c.toNat := by omega
  have hcard : ¬ (pool.available_ports.card : ℤ) < c := by
    by_contra hlt
    have hnone : pool.allocate c pref = (none, pool) := by
      unfold PortPool.allocate
      rw [if_neg hnle, if_pos hlt]
    rw [hnone] at hl0
    simp at hl0
  have hcardn : c.toNat ≤ pool.available_ports.card := by omega
  have hmaster :
      (∃ ps, pref = some ps ∧ blockFree pool ps c.toNat = true ∧
        l = List.range' ps c.toNat) ∨
      ((pref = none ∨ ∃ ps, pref = some ps ∧ blockFree pool ps c.toNat ≠ true) ∧
        findContiguousBlock pool c.toNat = some l) := by
    rcases pref with _ | ps
    · right
      refine ⟨Or.inl rfl, ?_⟩
      rcases hfb : findContiguousBlock pool c.toNat with _ | l2
      · exfalso
        have hnone : (pool.allocate c none).1 = none := by
          unfold PortPool.allocate
          rw [if_neg hnle, if_neg hcard]
          simp only [hfb]
        rw [hnone] at hl0
        simp at hl0
      · have hsome : (pool.allocate c none).1 = some l2 := by
          unfold PortPool.allocate
          rw [if_neg hnle, if_neg hcard]
          simp only [hfb]
        rw [hl0] at hsome
        exact hsome.symm
    · by_cases hbf : blockFree pool ps c.toNat = true
      · left
        refine ⟨ps, rfl, hbf, ?_⟩
        by_cases hps0 : ps = 0
        · subst hps0
          have hfz := findContiguousBlock_zero pool hnpos hcardn hbf
          have hcond : ¬((0 : ℕ) ≠ 0 ∧ canAllocateFrom pool 0 c.toNat = true) := by
            simp
          have hsome : (pool.allocate c (some 0)).1 = some (List.range' 0 c.toNat) := by
            unfold PortPool.allocate
            rw [if_neg hnle, if_neg hcard]
            simp only [if_neg hcond, hfz]
          rw [hl0] at hsome
          exact Option.some.inj hsome
        · have hcan : canAllocateFrom pool ps c.toNat = true :=
            (canAllocateFrom_iff pool ps c.toNat).mpr ((blockFree_iff pool ps c.toNat).mp hbf)
          have hsome : (pool.allocate c (some ps)).1 = some (List.range' ps c.toNat) := by
            unfold PortPool.allocate
            rw [if_neg hnle, if_neg hcard]
            simp only [if_pos (And.intro hps0 hcan)]
          rw [hl0] at hsome
          exact Option.some.inj hsome
      · right
        refine ⟨Or.inr ⟨ps, rfl, hbf⟩, ?_⟩
        have hcond : ¬(ps ≠ 0 ∧ canAllocateFrom pool ps c.toNat = true) := by
          rintro ⟨_, hcan⟩
          exact hbf ((blockFree_iff pool ps c.toNat).mpr
            ((canAllocateFrom_iff pool ps c.toNat).mp hcan))
        rcases hfb : findContiguousBlock pool c.toNat with _ | l2
        · exfalso
          have hnone : (pool.allocate c (some ps)).1 = none := by
            unfold PortPool.allocate
            rw [if_neg hnle, if_neg hcard]
            simp only [if_neg hcond, hfb]
          rw [hnone] at hl0
          simp at hl0
        · have hsome : (pool.allocate c (some ps)).1 = some l2 := by
            unfold PortPool.allocate
            rw [if_neg hnle, if_neg hcard]
            simp only [if_neg hcond, hfb]
          rw [hl0] at hsome
          exact hsome.symm
  have hshape : ∃ s, l = List.range' s c.toNat ∧ blockFree pool s c.toNat = true := by
    rcases hmaster with ⟨ps, _, hbf, hleq⟩ | ⟨_, hfind⟩
    · exact ⟨ps, hleq, hbf⟩
    · obtain ⟨s, hleq, hsbf, _⟩ := findContiguousBlock_min pool hnpos hfind
      exact ⟨s, hleq, hsbf⟩
  obtain ⟨s0, hleq0, hbf0⟩ := hshape
  refine ⟨?_, ⟨s0, hleq0⟩, ?_, ?_, ?_⟩
  · rw [hleq0, List.length_range']
  · intro d rec hne hrec x hxl hxrec
    have hav : x ∈ pool.available_ports := by
      refine blockFree_mem hbf0 x ?_
      rw [← hleq0]
      exact hxl
    exact hInv.1 d rec hrec proto pool hp x hxrec hav
  · intro ps hps hblk
    subst hps
    rcases hmaster with ⟨ps2, hps2, _, hleq⟩ | ⟨hcond, _⟩
    · obtain rfl : ps2 = ps := by
        exact (Option.some.inj hps2).symm
      exact hleq
    · rcases hcond with hnone | ⟨ps2, hps2, hbf2⟩
      · exact absurd hnone (by simp)
      · have he : ps2 = ps := (Option.some.inj hps2).symm
        rw [he] at hbf2
        exact absurd ((blockFree_iff pool ps c.toNat).mpr hblk) hbf2
  · intro hante
    rcases hmaster with ⟨ps2, hps2, hbf2, _⟩ | ⟨_, hfind⟩
    · exfalso
      rcases hante with hnone | ⟨ps, hps, hnblk⟩
      · rw [hps2] at hnone
        simp at hnone
      · rw [hps2] at hps
        obtain rfl : ps2 = ps := Option.some.inj hps
        exact hnblk ((blockFree_iff pool ps2 c.toNat).mp hbf2)
    · obtain ⟨s, hleq, hsbf, hmin⟩ := findContiguousBlock_min pool hnpos hfind
      exact ⟨s, hleq, (blockFree_iff pool s c.toNat).mp hsbf,
        fun u hu => hmin u ((blockFree_iff pool u c.toNat).mpr hu)⟩

/-- Counterexample to C6 as stated: `allocate_ports` for a device that
already holds a record returns that record regardless of the requested
count — here a list of length 1 is returned for a request of 2 ports. -/
theorem allocate_ports_reallocation_wrong_length :
    ¬ (∀ l, (allocatePorts (allocatePorts modbusPoolManager "modbus" "A" 1 (some 5020)).2
        "modbus" "A" 2 (some 5021)).1 = some l → l.length = 2) := by
  intro hcl
  have h1 : (allocatePorts (allocatePorts modbusPoolManager "modbus" "A" 1 (some 5020)).2
      "modbus" "A" 2 (some 5021)).1 = some [5020] := by decide
  have h2 := hcl [5020] h1
  simp at h2

/-- Witness for the amended C6 at a concrete fresh allocation of 2 ports
with preferred start 5021. -/
theorem allocate_ports_fresh_spec_witness :
    [5021, 5022].length = (2 : ℤ).toNat ∧
    (∃ s, [5021, 5022] = List.range' s (2 : ℤ).toNat) ∧
    (∀ d rec, d ≠ "dev" → modbusPoolManager.device_port_mappings d = some rec →
      ∀ x ∈ [5021, 5022], x ∉ rec) ∧
    (∀ ps, (some 5021 : Option ℕ) = some ps →
      (∀ x ∈ List.range' ps (2 : ℤ).toNat,
        x ∈ (mkPortPool 5020 5024 "modbus").available_ports) →
      [5021, 5022] = List.range' ps (2 : ℤ).toNat) ∧
    (((some 5021 : Option ℕ) = none ∨ ∃ ps, (some 5021 : Option ℕ) = some ps ∧
        ¬ ∀ x ∈ List.range' ps (2 : ℤ).toNat,
          x ∈ (mkPortPool 5020 5024 "modbus").available_ports) →
      ∃ s, [5021, 5022] = List.range' s (2 : ℤ).toNat ∧
        (∀ x ∈ List.range' s (2 : ℤ).toNat,
          x ∈ (mkPortPool 5020 5024 "modbus").available_ports) ∧
        ∀ u, (∀ x ∈ List.range' u (2 : ℤ).toNat,
          x ∈ (mkPortPool 5020 5024 "modbus").available_ports) → s ≤ u) := by
  have hInv : ManagerInv modbusPoolManager := by
    constructor
    · intro d rec hrec
      simp [modbusPoolManager] at hrec
    · intro p1 p2 pool1 pool2 hne h1 h2
      by_cases e1 : p1 = "modbus"
      · by_cases e2 : p2 = "modbus"
        · exact absurd (e1.trans e2.symm) hne
        · simp [modbusPoolManager, e2] at h2
      · simp [modbusPoolManager, e1] at h1
  have h1 : (allocatePorts modbusPoolManager "modbus" "dev" 2 (some 5021)).1 =
      some [5021, 5022] := by decide
  have hres : allocatePorts modbusPoolManager "modbus" "dev" 2 (some 5021) =
      (some [5021, 5022],
        (allocatePorts modbusPoolManager "modbus" "dev" 2 (some 5021)).2) := by
    rw [← h1]
  exact allocate_ports_fresh_spec modbusPoolManager "modbus" "dev"
    (mkPortPool 5020 5024 "modbus") 2 (some 5021) [5021, 5022] _
    hInv rfl rfl (by norm_num) hres

/-! ## Reachability of the manager invariant -/

/-- `initialize_pools` establishes the manager invariant whenever the
configured port ranges are pairwise disjoint (the spec's "every port lies in
exactly one pool"). -/
theorem initPools_managerInv (ranges : String → Option (ℕ × ℕ))
    (hdisj : ∀ p1 p2 r1 r2, p1 ≠ p2 → ranges p1 = some r1 → ranges p2 = some r2 →
      ∀ x ∈ Finset.Icc r1.1 r1.2, x ∉ Finset.Icc r2.1 r2.2) :
    ManagerInv (initPools ranges) := by
  constructor
  · intro d rec hrec
    exact absurd hrec (by simp [initPools])
  · intro p1 p2 pool1 pool2 hne h1 h2
    simp only [initPools] at h1 h2
    rcases hr1 : ranges p1 with _ | r1
    · rw [hr1] at h1; simp at h1
    · rcases hr2 : ranges p2 with _ | r2
      · rw [hr2] at h2; simp at h2
      · rw [hr1] at h1
        rw [hr2] at h2
        simp only [Option.map_some'] at h1 h2
        have e1 : pool1 = mkPortPool r1.1 r1.2 p1 := (Option.some.inj h1).symm
        have e2 : pool2 = mkPortPool r2.1 r2.2 p2 := (Option.some.inj h2).symm
        subst e1; subst e2
        exact hdisj p1 p2 r1 r2 hne hr1 hr2

/-- `allocate_ports` preserves the manager invariant: a fresh record is
drawn from its pool's available ports, which are then removed, and every
pool's available set only shrinks. -/
theorem allocatePorts_preserves_managerInv (m : PortManager) (proto dev : String)
    (c : ℤ) (pref : Option ℕ) (hInv : ManagerInv m) :
    ManagerInv (allocatePorts m proto dev c pref).2 := by
  rcases hp : m.port_pools proto with _ | pool
  · have h2 : (allocatePorts m proto dev c pref).2 = m := by
      unfold allocatePorts; rw [hp]
    rw [h2]; exact hInv
  · rcases hd : m.device_port_mappings dev with _ | rec
    · rcases PortPool.allocate_cases pool c pref with ⟨hc0, heq⟩ | heq | ⟨s, hcpos, hmem, heq⟩
      · have h2 : (allocatePorts m proto dev c pref).2 = m :=
          congrArg Prod.snd (allocatePorts_nonpos m proto dev pool c pref hc0 hp hd)
        rw [h2]; exact hInv
      · have h2 : (allocatePorts m proto dev c pref).2 = m := by
          unfold allocatePorts
          rw [hp, hd]
          simp only [heq, updatePool_self m.port_pools proto pool hp]
        rw [h2]; exact hInv
      · have hemp : (List.range' s c.toNat).isEmpty = false := by
          rcases hLc : List.range' s c.toNat with _ | ⟨a, as⟩
          · exfalso
            have hlen : (List.range' s c.toNat).length = c.toNat := List.length_range' _ _ _
            rw [hLc] at hlen
            simp at hlen
            omega
          · rfl
        have h2 : (allocatePorts m proto dev c pref).2 =
            { port_pools := updatePool m.port_pools proto
                { pool with
                  allocated_ports := pool.allocated_ports ∪ (List.range' s c.toNat).toFinset
                  available_ports := pool.available_ports \ (List.range' s c.toNat).toFinset }
              device_port_mappings := fun k =>
                if k = dev then some (List.range' s c.toNat)
                else m.device_port_mappings k } := by
          unfold allocatePorts
          rw [hp, hd]
          simp only [heq, hemp, Bool.false_eq_true, if_false]
        rw [h2]
        have hsub : ∀ q pq, updatePool m.port_pools proto
            { pool with
              allocated_ports := pool.allocated_ports ∪ (List.range' s c.toNat).toFinset
              available_ports := pool.available_ports \ (List.range' s c.toNat).toFinset }
              q = some pq →
            ∃ pq0, m.port_pools q = some pq0 ∧
              pq.available_ports ⊆ pq0.available_ports := by
          intro q pq hq
          unfold updatePool at hq
          by_cases hqp : q = proto
          · subst hqp
            rw [if_pos rfl] at hq
            refine ⟨pool, hp, ?_⟩
            rw [← Option.some.inj hq]
            exact Finset.sdiff_subset
          · rw [if_neg hqp] at hq
            exact ⟨pq, hq, Finset.Subset.refl _⟩
        constructor
        · intro d rec2 hrec proto2 pool2 hp2 x hxrec
          have hrec2 : (if d = dev then some (List.range' s c.toNat)
              else m.device_port_mappings d) = some rec2 := hrec
          obtain ⟨pq0, hq0, hsub0⟩ := hsub proto2 pool2 hp2
          by_cases hdd : d = dev
          · rw [if_pos hdd] at hrec2
            have hrecL : rec2 = List.range' s c.toNat := (Option.some.inj hrec2).symm
            subst hrecL
            have hxav : x ∈ pool.available_ports := hmem x hxrec
            intro hxin
            by_cases hqp : proto2 = proto
            · subst hqp
              have hq2 : updatePool m.port_pools proto2
                  { pool with
                    allocated_ports := pool.allocated_ports ∪ (List.range' s c.toNat).toFinset
                    available_ports := pool.available_ports \ (List.range' s c.toNat).toFinset }
                    proto2 = some pool2 := hp2
              unfold updatePool at hq2
              rw [if_pos rfl] at hq2
              have hpool2 := Option.some.inj hq2
              rw [← hpool2] at hxin
              simp only [Finset.mem_sdiff] at hxin
              exact hxin.2 (List.mem_toFinset.mpr hxrec)
            · exact hInv.2 proto proto2 pool pq0 (fun hh => hqp hh.symm) hp hq0 x hxav
                (hsub0 hxin)
          · rw [if_neg hdd] at hrec2
            intro hxin
            exact hInv.1 d rec2 hrec2 proto2 pq0 hq0 x hxrec (hsub0 hxin)
        · intro p1 p2 pool1 pool2 hne12 h1 h2x
          obtain ⟨q1, hq1, hs1⟩ := hsub p1 pool1 h1
          obtain ⟨q2, hq2, hs2⟩ := hsub p2 pool2 h2x
          intro x hx1 hx2
          exact hInv.2 p1 p2 q1 q2 hne12 hq1 hq2 x (hs1 hx1) (hs2 hx2)
    · have h2 : (allocatePorts m proto dev c pref).2 = m := by
        unfold allocatePorts; rw [hp, hd]
      rw [h2]; exact hInv

end ProtocolSim
